import Mathlib

/-!
Verification of the legacy-alert-to-unified-alerting migration engine of Grafana.

This file gives a shallow embedding, in Lean 4, of the migration code found in
the repository (package migration: receiver/route building, settings
transcoding, UID allocation, rule title deduplication, query rewriting,
state-enum translation, and revert cleanup), together with theorems settling
the specification claims about that code.

Modelling conventions:
- Go maps are modelled as association lists; iteration order of a Go map is
  unspecified, so wherever the code ranges over a map the model fixes the
  (irrelevant or explicitly noted) list order.
- External collaborators (the secrets-encryption service, the random short-UID
  generator, the alertmanager receiver validation from the alerting library)
  are parameters of the embedded functions: an encryption function
  String to String, a UID stream Nat to String consumed at an index, and a
  validation predicate.
- Strings are treated at character granularity; the Go code slices byte
  strings, which agrees with this model on ASCII data (all concrete inputs
  used below are ASCII).
- Fallible Go functions return Except String; a Go panic is modelled as the
  Option value none.
-/

set_option linter.unusedVariables false
set_option maxRecDepth 10000

namespace GrafanaMigration

/-! ## Association list helpers (the model of Go maps) -/

/-- Lookup of the first binding of a key in an association list. -/
def lookupA {κ α : Type} [DecidableEq κ] : List (κ × α) → κ → Option α
  | [], _ => none
  | (k1, v) :: rest, k => if k1 = k then some v else lookupA rest k

/-- Map update: replace the first binding of the key, or append a new binding. -/
def setA {κ α : Type} [DecidableEq κ] : List (κ × α) → κ → α → List (κ × α)
  | [], k, v => [(k, v)]
  | (k1, v1) :: rest, k, v =>
    if k1 = k then (k1, v) :: rest else (k1, v1) :: setA rest k v

/-- Map deletion: remove all bindings of the key (a Go map holds at most one). -/
def delA {κ α : Type} [DecidableEq κ] : List (κ × α) → κ → List (κ × α)
  | [], _ => []
  | (k1, v) :: rest, k => if k1 = k then delA rest k else (k1, v) :: delA rest k

/-- Append a value to the list stored under a key, creating the key if absent.
This models the Go idiom m[k] = append(m[k], v) on a map of slices. -/
def appendA {κ α : Type} [DecidableEq κ] : List (κ × List α) → κ → α → List (κ × List α)
  | [], k, v => [(k, [v])]
  | (k1, vs) :: rest, k, v =>
    if k1 = k then (k1, vs ++ [v]) :: rest else (k1, vs) :: appendA rest k v

theorem lookupA_setA_self {κ α : Type} [DecidableEq κ] (l : List (κ × α)) (k : κ) (v : α) :
    lookupA (setA l k v) k = some v := by
  induction l with
  | nil => simp [setA, lookupA]
  | cons hd tl ih =>
    by_cases h : hd.1 = k
    · simp [setA, lookupA, h]
    · simpa [setA, lookupA, h] using ih

theorem lookupA_setA_ne {κ α : Type} [DecidableEq κ] (l : List (κ × α)) (k k1 : κ) (v : α)
    (h : k1 ≠ k) : lookupA (setA l k v) k1 = lookupA l k1 := by
  induction l with
  | nil => simp [setA, lookupA, Ne.symm h]
  | cons hd tl ih =>
    obtain ⟨k2, v2⟩ := hd
    by_cases h2 : k2 = k
    · subst h2
      simp [setA, lookupA, Ne.symm h]
    · by_cases h3 : k2 = k1
      · simp [setA, lookupA, h2, h3, h]
      · simp [setA, lookupA, h2, h3, ih]

/-! ## A model of JSON values

The migration code manipulates query models and channel settings as untyped
JSON (json.RawMessage and simplejson.Json in Go). -/

/-- Untyped JSON values. -/
inductive Json where
  | null
  | bool (b : Bool)
  | num (n : Int)
  | str (s : String)
  | arr (elems : List Json)
  | obj (fields : List (String × Json))

/-- The simplejson MustString accessor: the string value, or the empty string
when the value is absent or not a string. -/
def Json.mustString : Option Json → String
  | some (Json.str s) => s
  | _ => ""

/-! ## State-enum translation (transNoData / transExecErr)

The switch statements of transNoData and transExecErr in the source match on
constants of the legacy alerting models package.  That package is not part of
the reviewed sources, so the constant strings are modelled from the spec. -/

/-- Target no-data states of unified alerting (ngmodels.NoDataState). -/
inductive NoDataState where
  | OK
  | NoData
  | Alerting
deriving DecidableEq, Repr

/-- Target error states of unified alerting (ngmodels.ExecutionErrorState). -/
inductive ExecutionErrorState where
  | AlertingErrState
  | ErrorErrState
  | OkErrState
deriving DecidableEq, Repr

/-- Modelled from the spec: the legacy no-data option legacymodels.NoDataSetOK
(the constant string itself is defined outside the reviewed sources). -/
def noDataSetOK : String := "ok"

/-- Modelled from the spec: the legacy no-data option legacymodels.NoDataSetNoData. -/
def noDataSetNoData : String := "no-data"

/-- Modelled from the spec: the legacy no-data option legacymodels.NoDataSetAlerting. -/
def noDataSetAlerting : String := "alerting"

/-- Modelled from the spec: the legacy no-data option legacymodels.NoDataKeepState. -/
def noDataKeepState : String := "keep-last-state"

/-- Modelled from the spec: the legacy error option legacymodels.ExecutionErrorSetAlerting. -/
def executionErrorSetAlerting : String := "alerting"

/-- Modelled from the spec: the legacy error option legacymodels.ExecutionErrorKeepState. -/
def executionErrorKeepState : String := "keep-last-state"

/-- Modelled from the spec: the legacy error option legacymodels.ExecutionErrorSetOk. -/
def executionErrorSetOk : String := "ok"

/-- Translation of the legacy no-data state string (transNoData in the source).
The warning log on the default branch is dropped; the returned value is kept. -/
def transNoData (s : String) : NoDataState :=
  if s = noDataSetOK then NoDataState.OK
  else if s = "" ∨ s = noDataSetNoData then NoDataState.NoData
  else if s = noDataSetAlerting then NoDataState.Alerting
  else if s = noDataKeepState then NoDataState.NoData
  else NoDataState.NoData

/-- Translation of the legacy execution-error state string (transExecErr in the
source). The warning log on the default branch is dropped. -/
def transExecErr (s : String) : ExecutionErrorState :=
  if s = "" ∨ s = executionErrorSetAlerting then ExecutionErrorState.AlertingErrState
  else if s = executionErrorKeepState then ExecutionErrorState.ErrorErrState
  else if s = executionErrorSetOk then ExecutionErrorState.OkErrState
  else ExecutionErrorState.ErrorErrState

/-! ## Folder name generation (getAlertFolderNameFromDashboard) -/

/-- The DASHBOARD_FOLDER format string "%s Alerts - %s" applied to a title and
a dashboard UID. -/
def DASHBOARD_FOLDER (title uid : String) : String :=
  title ++ " Alerts - " ++ uid

/-- MaxFolderName, the maximum length of a generated folder name. -/
def MaxFolderName : Nat := 255

/-- Embedding of getAlertFolderNameFromDashboard.  The Go function computes
maxLen = MaxFolderName - len(fmt.Sprintf(DASHBOARD_FOLDER, "", uid)) as a
signed int and evaluates title[:maxLen] whenever len(title) > maxLen; when
maxLen is negative that slice expression panics at run time, which this model
renders as none. -/
def getAlertFolderNameFromDashboard (uid title : String) : Option String :=
  let maxLen : Int := (MaxFolderName : Int) - ((DASHBOARD_FOLDER "" uid).length : Int)
  if (title.length : Int) > maxLen then
    if maxLen < 0 then none
    else some (DASHBOARD_FOLDER (title.take maxLen.toNat) uid)
  else some (DASHBOARD_FOLDER title uid)

/-! ## Rule title truncation and per-folder deduplication -/

/-- Embedding of truncateRuleName.  The maximum title length is the constant
store.AlertDefinitionMaxTitleLength of the rule store package, which is outside
the reviewed sources; it is therefore taken as a parameter maxTitleLength. -/
def truncateRuleName (maxTitleLength : Nat) (daName : String) : String :=
  if daName.length > maxTitleLength then daName.take maxTitleLength else daName

/-- The fields of a migrated alert rule (ngmodels.AlertRule) that the claims
touch.  Condition, query data, interval, timestamps, and state enums are not
inspected by the verified functions and are omitted. -/
structure AlertRule where
  orgID : Int
  uid : String
  title : String
  namespaceUID : String
  ruleGroup : String
  labels : List (String × String)
deriving DecidableEq, Repr

/-- One step of the title-deduplication loop inside insertRules: the
accumulator is the titleDedup map (namespace UID to set of assigned titles)
paired with the rules emitted so far. -/
def insertRulesStep (acc : List (String × List String) × List AlertRule)
    (rule : AlertRule) : List (String × List String) × List AlertRule :=
  let existingTitles := (lookupA acc.1 rule.namespaceUID).getD []
  let rule :=
    if rule.title ∈ existingTitles then
      { rule with
        title := rule.title ++ " " ++ rule.uid,
        ruleGroup := rule.ruleGroup ++ " " ++ rule.uid }
    else rule
  (setA acc.1 rule.namespaceUID (rule.title :: existingTitles), acc.2 ++ [rule])

/-- Embedding of the per-organisation body of insertRules: walk the rules of
one organisation, rename a rule whose title was already assigned inside its
namespace by appending a space and the rule UID (the Go code appends
fmt.Sprintf(" %v", rule.UID) to both Title and RuleGroup), and collect the
rows handed to the store.  The store write itself is external. -/
def insertRules (orgRules : List AlertRule) : List AlertRule :=
  (orgRules.foldl insertRulesStep ([], [])).2

/-! ## UID allocation (uidSet, generateUid, determineChannelUid)

The random short-UID generator util.GenerateShortUID is external; it is
modelled as a stream gen : Nat to String consumed at a running index, so a
loop that generates n candidates reads gen idx, gen (idx+1), and so on. -/

/-- The uidSet structure: the set of seen (dedup) keys and the
case-sensitivity flag taken from the store dialect. -/
structure UidSet where
  set : List String
  caseInsensitive : Bool
deriving DecidableEq, Repr

/-- The dedup key of a UID: lower-cased when the set is case-insensitive. -/
def UidSet.dedupKey (s : UidSet) (uid : String) : String :=
  if s.caseInsensitive then uid.toLower else uid

/-- Membership test of uidSet.contains. -/
def UidSet.contains (s : UidSet) (uid : String) : Bool :=
  decide (s.dedupKey uid ∈ s.set)

/-- Insertion of uidSet.add. -/
def UidSet.add (s : UidSet) (uid : String) : UidSet :=
  { s with set := s.dedupKey uid :: s.set }

/-- The bounded generation loop of uidSet.generateUid, by remaining attempts:
draw a candidate from the stream; keep it when fresh, retry otherwise. -/
def generateUidFrom (gen : Nat → String) :
    Nat → Nat → UidSet → Except String (String × UidSet × Nat)
  | 0, _, _ => Except.error "failed to generate UID"
  | n + 1, idx, s =>
    let g := gen idx
    if s.contains g then generateUidFrom gen n (idx + 1) s
    else Except.ok (g, s.add g, idx + 1)

/-- Embedding of uidSet.generateUid: at most five attempts, then an error. -/
def UidSet.generateUid (gen : Nat → String) (idx : Nat) (s : UidSet) :
    Except String (String × UidSet × Nat) :=
  generateUidFrom gen 5 idx s

/-- The fields of a legacy notification channel
(legacymodels.AlertNotification) used by the migration.  The secure settings
are modelled in decrypted form: SecureJsonData.Decrypt is an external service
call applied to them before any other use. -/
structure AlertNotification where
  id : Int
  orgId : Int
  uid : String
  name : String
  type : String
  disableResolveMessage : Bool
  isDefault : Bool
  settings : List (String × Json)
  secureSettings : List (String × String)
  sendReminder : Bool
  frequency : Int

/-- A notification channel literal with the fields irrelevant to a claim set
to inert values; used by concrete witnesses. -/
def chanEx (id orgId : Int) (uid name ctype : String) (isDefault : Bool) : AlertNotification :=
  { id := id, orgId := orgId, uid := uid, name := name, type := ctype,
    disableResolveMessage := false, isDefault := isDefault, settings := [],
    secureSettings := [], sendReminder := false, frequency := 0 }

/-- Embedding of determineChannelUid: reuse a non-empty legacy UID that has
not been seen, otherwise generate a fresh one.  The seen-UID set and the
stream index are threaded explicitly. -/
def determineChannelUid (gen : Nat → String) (idx : Nat) (s : UidSet)
    (c : AlertNotification) : Except String (String × UidSet × Nat) :=
  if c.uid = "" then UidSet.generateUid gen idx s
  else if s.contains c.uid then UidSet.generateUid gen idx s
  else Except.ok (c.uid, s, idx)

/-! ## Revert cleanup (cleanupDashboardAlerts) -/

/-- A recorded migrated alert of a dashboard upgrade: whether the stored
AlertRule reference is non-nil, and its UID. -/
structure AlertPair where
  hasRule : Bool
  ruleUID : String
deriving DecidableEq, Repr

/-- The recorded state of one migrated dashboard (migmodels.DashboardUpgrade). -/
structure DashboardUpgrade where
  migratedAlerts : List AlertPair
  folderUID : String
  newFolderUID : String
  newFolderName : String
deriving DecidableEq, Repr

/-- The per-organisation migration state that cleanup consults. -/
structure OrgMigrationState where
  createdFolders : List String
deriving DecidableEq, Repr

/-- The store deletions issued by one cleanup run: the rule UIDs passed to
DeleteAlertRules and the folder UIDs passed to DeleteFolders. -/
structure CleanupOps where
  deletedRuleUIDs : List String
  deletedFolderUIDs : List String
deriving DecidableEq, Repr

/-- Embedding of cleanupDashboardAlerts.  Store calls are recorded in
CleanupOps; the new migration state is returned alongside.  The Go loop that
removes the folder UID from state.CreatedFolders deletes the first matching
entry and stops, which is List.erase; the folder is deleted from the store
only when the UID was found in that list. -/
def cleanupDashboardAlerts (state : OrgMigrationState) (du : Option DashboardUpgrade) :
    CleanupOps × OrgMigrationState :=
  match du with
  | none => (⟨[], []⟩, state)
  | some du =>
    let ruleUids :=
      (du.migratedAlerts.filter (fun p => p.hasRule && p.ruleUID ≠ "")).map (·.ruleUID)
    if du.newFolderUID ≠ "" ∧ du.newFolderUID ≠ du.folderUID then
      let found := du.newFolderUID ∈ state.createdFolders
      if found then
        (⟨ruleUids, [du.newFolderUID]⟩,
          ⟨state.createdFolders.erase du.newFolderUID⟩)
      else (⟨ruleUids, []⟩, state)
    else (⟨ruleUids, []⟩, state)

/-! ## Query rewriting (fixPrometheusBothTypeQuery, isPrometheusQuery)

A query model is a JSON object, map String to json.RawMessage in Go. -/

/-- Result of json.Unmarshal of a raw JSON value into a Go bool variable that
is zero-initialised: a JSON bool sets the variable, JSON null leaves it false,
and any other value is an unmarshal error (none). -/
def unmarshalBool : Json → Option Bool
  | Json.bool b => some b
  | Json.null => some false
  | _ => none

/-- Result of json.Unmarshal of the datasource raw value into the struct
holding the field Type string: an object yields its type field (the empty
string when absent or null), JSON null yields the zero value, a type field or
datasource value of any other shape is an unmarshal error. -/
def unmarshalDatasourceType : Json → Except String String
  | Json.obj fields =>
    match lookupA fields "type" with
    | some (Json.str s) => Except.ok s
    | some Json.null => Except.ok ""
    | some _ => Except.error "parse datasource"
    | none => Except.ok ""
  | Json.null => Except.ok ""
  | _ => Except.error "parse datasource"

/-- Embedding of isPrometheusQuery: whether the query's datasource type field
equals "prometheus"; a missing datasource, an unparseable datasource value, or
an empty type field is an error. -/
def isPrometheusQuery (queryData : List (String × Json)) : Except String Bool :=
  match lookupA queryData "datasource" with
  | none => Except.error "missing datasource field"
  | some ds =>
    match unmarshalDatasourceType ds with
    | Except.error e => Except.error e
    | Except.ok t =>
      if t = "" then Except.error "missing type field"
      else Except.ok (t = "prometheus")

/-- Embedding of fixPrometheusBothTypeQuery: a Prometheus query requesting
both instant and range semantics is forced to range-only by setting its
instant field to false; every other query is returned unchanged (parse
failures of the instant, range, or datasource fields only log). -/
def fixPrometheusBothTypeQuery (queryData : List (String × Json)) :
    List (String × Json) :=
  match (match lookupA queryData "instant" with
         | some raw => unmarshalBool raw
         | none => some false) with
  | none => queryData
  | some instant =>
    match (match lookupA queryData "range" with
           | some raw => unmarshalBool raw
           | none => some false) with
    | none => queryData
    | some rng =>
      if ¬instant ∨ ¬rng then queryData
      else
        match isPrometheusQuery queryData with
        | Except.error _ => queryData
        | Except.ok false => queryData
        | Except.ok true => setA queryData "instant" (Json.bool false)

/-! ## MD5 (crypto/md5)

The receiver name deduplication appends fmt.Sprintf("_%.3x", md5.Sum(name)),
the hexadecimal rendering of the first three bytes of the MD5 digest of the
original channel name.  MD5 is implemented here over Nat with explicit 32-bit
truncation so that concrete hash values can be evaluated in proofs. -/

/-- Truncation of a natural number to 32 bits. -/
def m32 (n : Nat) : Nat := n % 4294967296

/-- Bitwise complement of a 32-bit value. -/
def not32 (x : Nat) : Nat := Nat.xor x 4294967295

/-- Left rotation of a 32-bit value by c bits (0 < c < 32). -/
def rotl32 (x c : Nat) : Nat := m32 (x <<< c) ||| (x >>> (32 - c))

/-- The 64 MD5 sine-derived constants. -/
def md5K : List Nat :=
  [3614090360, 3905402710, 606105819, 3250441966, 4118548399, 1200080426, 2821735955, 4249261313,
   1770035416, 2336552879, 4294925233, 2304563134, 1804603682, 4254626195, 2792965006, 1236535329,
   4129170786, 3225465664, 643717713, 3921069994, 3593408605, 38016083, 3634488961, 3889429448,
   568446438, 3275163606, 4107603335, 1163531501, 2850285829, 4243563512, 1735328473, 2368359562,
   4294588738, 2272392833, 1839030562, 4259657740, 2763975236, 1272893353, 4139469664, 3200236656,
   681279174, 3936430074, 3572445317, 76029189, 3654602809, 3873151461, 530742520, 3299628645,
   4096336452, 1126891415, 2878612391, 4237533241, 1700485571, 2399980690, 4293915773, 2240044497,
   1873313359, 4264355552, 2734768916, 1309151649, 4149444226, 3174756917, 718787259, 3951481745]

/-- The 64 MD5 per-round shift amounts. -/
def md5S : List Nat :=
  [7, 12, 17, 22, 7, 12, 17, 22, 7, 12, 17, 22, 7, 12, 17, 22,
   5, 9, 14, 20, 5, 9, 14, 20, 5, 9, 14, 20, 5, 9, 14, 20,
   4, 11, 16, 23, 4, 11, 16, 23, 4, 11, 16, 23, 4, 11, 16, 23,
   6, 10, 15, 21, 6, 10, 15, 21, 6, 10, 15, 21, 6, 10, 15, 21]

/-- The MD5 round function, by round index. -/
def md5F (i b c d : Nat) : Nat :=
  if i < 16 then (b &&& c) ||| (not32 b &&& d)
  else if i < 32 then (d &&& b) ||| (not32 d &&& c)
  else if i < 48 then (b ^^^ c) ^^^ d
  else c ^^^ (b ||| not32 d)

/-- The MD5 message-word index schedule, by round index. -/
def md5G (i : Nat) : Nat :=
  if i < 16 then i
  else if i < 32 then (5 * i + 1) % 16
  else if i < 48 then (3 * i + 5) % 16
  else (7 * i) % 16

/-- One MD5 round applied to the running (a, b, c, d) state. -/
def md5Round (M : List Nat) (st : Nat × Nat × Nat × Nat) (i : Nat) :
    Nat × Nat × Nat × Nat :=
  let f := m32 (md5F i st.2.1 st.2.2.1 st.2.2.2 + st.1 + md5K.getD i 0 + M.getD (md5G i) 0)
  (st.2.2.2, m32 (st.2.1 + rotl32 f (md5S.getD i 0)), st.2.1, st.2.2.1)

/-- One 512-bit MD5 block: 64 rounds, then addition into the chaining state. -/
def md5Block (M : List Nat) (st : Nat × Nat × Nat × Nat) : Nat × Nat × Nat × Nat :=
  let r := (List.range 64).foldl (md5Round M) st
  (m32 (st.1 + r.1), m32 (st.2.1 + r.2.1), m32 (st.2.2.1 + r.2.2.1), m32 (st.2.2.2 + r.2.2.2))

/-- Little-endian byte rendering of a value on a fixed number of bytes. -/
def leBytes : Nat → Nat → List Nat
  | 0, _ => []
  | k + 1, n => (n % 256) :: leBytes k (n / 256)

/-- Grouping of a padded byte stream into little-endian 32-bit words. -/
def le32 : List Nat → List Nat
  | b0 :: b1 :: b2 :: b3 :: rest => (b0 + 256 * (b1 + 256 * (b2 + 256 * b3))) :: le32 rest
  | _ => []

/-- MD5 padding: a 1-bit, zeros to 56 mod 64 bytes, and the 64-bit bit length. -/
def md5Pad (msg : List Nat) : List Nat :=
  let len := msg.length
  let zeros := (64 + 56 - (len + 1) % 64) % 64
  msg ++ [128] ++ List.replicate zeros 0 ++ leBytes 8 (len * 8 % 18446744073709551616)

/-- Iteration of md5Block over a given number of 64-byte chunks. -/
def md5BlocksN : Nat → List Nat → Nat × Nat × Nat × Nat → Nat × Nat × Nat × Nat
  | 0, _, st => st
  | n + 1, bytes, st => md5BlocksN n (bytes.drop 64) (md5Block (le32 (bytes.take 64)) st)

/-- Iteration of md5Block over all 64-byte chunks of a padded stream (the
padded length is a multiple of 64). -/
def md5Blocks (bytes : List Nat) (st : Nat × Nat × Nat × Nat) : Nat × Nat × Nat × Nat :=
  md5BlocksN (bytes.length / 64) bytes st

/-- The full MD5 digest of a byte stream, as 16 bytes. -/
def md5Digest (msg : List Nat) : List Nat :=
  let st := md5Blocks (md5Pad msg) (1732584193, 4023233417, 2562383102, 271733878)
  leBytes 4 st.1 ++ leBytes 4 st.2.1 ++ leBytes 4 st.2.2.1 ++ leBytes 4 st.2.2.2

/-- Bytes of a string under the ASCII model used throughout this file. -/
def strBytes (s : String) : List Nat := s.data.map Char.toNat

/-- A hexadecimal digit character (lowercase). -/
def hexChar (n : Nat) : Char :=
  if n < 10 then Char.ofNat (48 + n) else Char.ofNat (87 + n)

/-- Lowercase hexadecimal rendering of a byte list. -/
def bytesHex (bs : List Nat) : String :=
  String.mk (bs.foldr (fun b acc => hexChar (b / 16 % 16) :: hexChar (b % 16) :: acc) [])

/-- The short name-collision hash: fmt.Sprintf("%.3x", md5.Sum(name)), i.e.
the first three digest bytes in hexadecimal (Go formats a byte array under a
precision of 3 by truncating the input to three bytes). -/
def md5hex3 (name : String) : String :=
  bytesHex ((md5Digest (strBytes name)).take 3)

/-! ## Settings transcoder (migrateSettingsToSecureSettings) -/

/-- Embedding of the secureKeysToMigrate table. -/
def secureKeysToMigrate (chanType : String) : List String :=
  if chanType = "slack" then ["url", "token"]
  else if chanType = "pagerduty" then ["integrationKey"]
  else if chanType = "webhook" then ["password"]
  else if chanType = "prometheus-alertmanager" then ["basicAuthPassword"]
  else if chanType = "opsgenie" then ["apiKey"]
  else if chanType = "telegram" then ["bottoken"]
  else if chanType = "line" then ["token"]
  else if chanType = "pushover" then ["apiToken", "userKey"]
  else if chanType = "threema" then ["api_secret"]
  else []

/-- The test of the Go idiom if v, ok := m[k]; ok && v is non-empty. -/
def optionHasValue : Option String → Bool
  | some v => decide (v ≠ "")
  | none => false

/-- One iteration of the key-migration loop: skip the key when the decrypted
secure settings already hold a non-empty value for it; otherwise, when the
plaintext settings hold a non-empty string under the key, move that value into
the secure settings and delete the key from the plaintext clone. -/
def migrateSecureKeyStep (acc : List (String × Json) × List (String × String))
    (k : String) : List (String × Json) × List (String × String) :=
  if optionHasValue (lookupA acc.2 k) then acc
  else
    let sv := Json.mustString (lookupA acc.1 k)
    if sv ≠ "" then (delA acc.1 k, setA acc.2 k sv) else acc

/-- Embedding of encryptSecureSettings: every value is replaced by its
encryption.  The parameter encrypt stands for the external encryption service
composed with the base64 rendering applied by the Go code. -/
def encryptSecureSettings (encrypt : String → String)
    (secureSettings : List (String × String)) : List (String × String) :=
  secureSettings.map (fun p => (p.1, encrypt p.2))

/-- Embedding of migrateSettingsToSecureSettings.  The secure settings arrive
here in decrypted form (SecureJsonData.Decrypt is an external call applied to
the stored blob); the settings object is assumed well-formed, the error path
of settings.Map() being out of scope. -/
def migrateSettingsToSecureSettings (encrypt : String → String) (chanType : String)
    (settings : List (String × Json)) (decryptedSecureSettings : List (String × String)) :
    List (String × Json) × List (String × String) :=
  let keys := secureKeysToMigrate chanType
  let moved := keys.foldl migrateSecureKeyStep (settings, decryptedSecureSettings)
  (moved.1, encryptSecureSettings encrypt moved.2)

/-- The effect of one key-migration step on the lookups at its own key,
computed from the original lookups: skip when the secure value is non-empty,
move a non-empty plaintext string, otherwise leave both sides alone. -/
def migrateKeyLookups (sv : Option Json) (sec : Option String) :
    Option Json × Option String :=
  if optionHasValue sec then (sv, sec)
  else if Json.mustString sv ≠ "" then (none, some (Json.mustString sv))
  else (sv, sec)

/-! ## Receiver creation (createNotifier, createReceivers) -/

/-- A migrated notifier configuration (apimodels.PostableGrafanaReceiver). -/
structure PostableGrafanaReceiver where
  uid : String
  name : String
  type : String
  disableResolveMessage : Bool
  settings : List (String × Json)
  secureSettings : List (String × String)

/-- A contact point (apimodels.PostableApiReceiver): a name and its notifiers. -/
structure PostableApiReceiver where
  name : String
  grafanaManagedReceivers : List PostableGrafanaReceiver

/-- A key of the receivers map: a channel is indexed both by its UID (when
non-empty) and by its numeric ID (when non-zero). -/
inductive UidOrID where
  | uid (s : String)
  | id (n : Int)
deriving DecidableEq, Repr

/-- The mutable migration context threaded through notifier creation: the set
of seen UIDs and the read position in the UID generator stream. -/
structure MigState where
  seenUIDs : UidSet
  genIdx : Nat

/-- Embedding of createNotifier: allocate the notifier UID, transcode the
channel settings, and assemble the PostableGrafanaReceiver. -/
def createNotifier (encrypt : String → String) (gen : Nat → String) (st : MigState)
    (c : AlertNotification) : Except String (PostableGrafanaReceiver × MigState) := do
  let (uid, seen, idx) ← determineChannelUid gen st.genIdx st.seenUIDs c
  let (settings, secureSettings) :=
    migrateSettingsToSecureSettings encrypt c.type c.settings c.secureSettings
  Except.ok
    ({ uid := uid, name := c.name, type := c.type,
       disableResolveMessage := c.disableResolveMessage,
       settings := settings, secureSettings := secureSettings },
     { seenUIDs := seen, genIdx := idx })

/-- Sanitization of a channel name: every double quote becomes an underscore
(strings.ReplaceAll with a one-character pattern). -/
def sanitizeName (name : String) : String :=
  String.mk (name.data.map (fun ch => if ch = '"' then '_' else ch))

/-- A channel paired with its migrated receiver (channelReceiver). -/
structure ChannelReceiver where
  channel : AlertNotification
  receiver : PostableApiReceiver

/-- The loop of createReceivers: per channel, create its notifier, sanitize
the channel name, append an underscore and the short hash of the original
name when the sanitized name was already taken, record the receiver, and
index it in the receivers map under the channel UID and numeric ID. -/
def createReceiversGo (encrypt : String → String) (gen : Nat → String) :
    MigState → List String → List AlertNotification →
    List (UidOrID × PostableApiReceiver) → List ChannelReceiver →
    Except String (List (UidOrID × PostableApiReceiver) × List ChannelReceiver × MigState)
  | st, _, [], rmap, rs => Except.ok (rmap, rs, st)
  | st, set, c :: cs, rmap, rs => do
    let (notifier, st) ← createNotifier encrypt gen st c
    let sanitized := sanitizeName c.name
    let sanitized := if sanitized ∈ set then sanitized ++ "_" ++ md5hex3 c.name else sanitized
    let notifier := { notifier with name := sanitized }
    let recv : PostableApiReceiver :=
      { name := sanitized, grafanaManagedReceivers := [notifier] }
    let cr : ChannelReceiver := { channel := c, receiver := recv }
    let rmap := if c.uid ≠ "" then setA rmap (UidOrID.uid c.uid) recv else rmap
    let rmap := if c.id ≠ 0 then setA rmap (UidOrID.id c.id) recv else rmap
    createReceiversGo encrypt gen st (set ++ [sanitized]) cs rmap (rs ++ [cr])

/-- Embedding of createReceivers: one receiver per notification channel, with
the empty dedup set and empty accumulators. -/
def createReceivers (encrypt : String → String) (gen : Nat → String) (st : MigState)
    (allChannels : List AlertNotification) :
    Except String (List (UidOrID × PostableApiReceiver) × List ChannelReceiver × MigState) :=
  createReceiversGo encrypt gen st [] allChannels [] []

/-- The receiver-name assignment performed by the createReceivers loop, on the
channel names alone: the running set is the list of names already assigned. -/
def receiverFinalNamesAux : List String → List String → List String
  | _, [] => []
  | set, n :: ns =>
    let s := sanitizeName n
    let f := if s ∈ set then s ++ "_" ++ md5hex3 n else s
    f :: receiverFinalNamesAux (set ++ [f]) ns

/-- Freshness of the hash-suffixed names along the createReceivers loop: when
a sanitized name collides with an already assigned name, its suffixed
replacement must itself be new.  The code checks only the sanitized name, so
this is exactly the condition under which deduplication succeeds. -/
def suffixedFresh : List String → List String → Bool
  | _, [] => true
  | set, n :: ns =>
    let s := sanitizeName n
    let f := if s ∈ set then s ++ "_" ++ md5hex3 n else s
    (decide (s ∉ set) || decide (f ∉ set)) && suffixedFresh (set ++ [f]) ns

/-- The receiver names of a createReceivers result, for stating concrete
evaluations (none when the run failed). -/
def receiverNamesOf
    (r : Except String
      (List (UidOrID × PostableApiReceiver) × List ChannelReceiver × MigState)) :
    Option (List String) :=
  match r with
  | Except.ok res => some (res.2.1.map (fun cr => cr.receiver.name))
  | Except.error _ => none

/-- The value of a successful Except computation, with a fallback default. -/
def exceptValue {ε α : Type} (e : Except ε α) (d : α) : α :=
  match e with
  | Except.ok v => v
  | Except.error _ => d

/-- First channel of the C5 counterexample: its name equals the hash-suffixed
name that the third channel will receive (576e09 is the leading three bytes of
the MD5 digest of the string a_). -/
def cexChanA : AlertNotification := chanEx 0 1 "u1" "a__576e09" "email" false

/-- Second channel of the C5 counterexample: its name carries a double quote
and sanitizes to a_. -/
def cexChanB : AlertNotification := chanEx 0 1 "u2" "a\"" "email" false

/-- Third channel of the C5 counterexample: its sanitized name a_ collides
with the second channel's receiver, and its hash-suffixed replacement
collides with the first channel's receiver. -/
def cexChanC : AlertNotification := chanEx 0 1 "u3" "a_" "email" false

/-- A small channel pair with collision-free names, used by the C5 witness. -/
def wChan1 : AlertNotification := chanEx 0 1 "u1" "chanA" "email" false

/-- Second collision-free channel of the C5 witness. -/
def wChan2 : AlertNotification := chanEx 0 1 "u2" "chanB" "email" false

/-- The createReceivers result on the two collision-free witness channels. -/
def wReceiversRes :
    List (UidOrID × PostableApiReceiver) × List ChannelReceiver × MigState :=
  exceptValue
    (createReceivers (fun s => s) (fun _ => "gen") ⟨⟨[], false⟩, 0⟩ [wChan1, wChan2])
    ([], [], ⟨⟨[], false⟩, 0⟩)

/-! ## Routes and the alertmanager configuration -/

/-- A regex label matcher (the code only builds MatchRegexp matchers). -/
structure Matcher where
  name : String
  value : String
deriving DecidableEq, Repr

/-- A per-contact-point route under the root (apimodels.Route as built by
createRoute): receiver, matchers, continue flag, repeat interval. -/
structure ChildRoute where
  receiver : String
  objectMatchers : List Matcher
  continueFlag : Bool
  repeatInterval : Int
deriving DecidableEq, Repr

/-- The root route (apimodels.Route as built by createDefaultRouteAndReceiver). -/
structure RootRoute where
  receiver : String
  routes : List ChildRoute
  groupByStr : List String
  repeatInterval : Option Int
deriving DecidableEq, Repr

/-- The alertmanager configuration of one organisation
(apimodels.PostableUserConfig restricted to the fields the migration fills). -/
structure PostableUserConfig where
  receivers : List PostableApiReceiver
  route : Option RootRoute

/-- DisabledRepeatInterval: 8736 hours in nanoseconds, the pseudo-disable
repeat interval used when a channel has no reminders. -/
def DisabledRepeatInterval : Int := 8736 * 3600 * 1000000000

/-- Modelled from the spec: the synthetic contact-list label key (the constant
ContactLabel is defined outside the reviewed sources; no claim depends on its
exact value). -/
def ContactLabel : String := "__contacts__"

/-- Modelled from the spec: ngmodels.FolderTitleLabel, used in the root
route's grouping (defined outside the reviewed sources). -/
def FolderTitleLabel : String := "grafana_folder"

/-- Modelled from the spec: model.AlertNameLabel, used in the root route's
grouping (defined outside the reviewed sources). -/
def AlertNameLabel : String := "alertname"

/-- The characters escaped by regexp.QuoteMeta. -/
def regexSpecialChars : List Char :=
  ['\\', '.', '+', '*', '?', '(', ')', '|', '[', ']', '\x7b', '\x7d', '^', '$']

/-- Embedding of regexp.QuoteMeta: backslash-escape every special character. -/
def regexpQuoteMeta (s : String) : String :=
  String.mk (s.data.foldr
    (fun ch acc => if ch ∈ regexSpecialChars then '\\' :: ch :: acc else ch :: acc) [])

/-- Surround a string in double quotes (the quote helper). -/
def quote (s : String) : String := "\"" ++ s ++ "\""

/-- Embedding of createRoute: one route per contact point, matching the
contact-list label by a quoted, regex-escaped receiver name; the route
continues so sibling routes can also match.  labels.NewMatcher only fails on
an invalid regex, which QuoteMeta rules out, so the error path is dead. -/
def createRoute (cr : ChannelReceiver) : Except String ChildRoute :=
  let name := ".*" ++ regexpQuoteMeta (quote cr.receiver.name) ++ ".*"
  Except.ok
    { receiver := cr.receiver.name,
      objectMatchers := [{ name := ContactLabel, value := name }],
      continueFlag := true,
      repeatInterval :=
        if cr.channel.sendReminder then cr.channel.frequency else DisabledRepeatInterval }

/-- The loop of the multi-default-channel case of createDefaultRouteAndReceiver:
create one notifier per default channel and accumulate the minimum reminder
frequency over channels with reminders enabled. -/
def createDefaultNotifiers (encrypt : String → String) (gen : Nat → String) :
    MigState → List AlertNotification → Int → List PostableGrafanaReceiver →
    Except String (List PostableGrafanaReceiver × Int × MigState)
  | st, [], ri, acc => Except.ok (acc, ri, st)
  | st, c :: cs, ri, acc => do
    let (n, st) ← createNotifier encrypt gen st c
    let ri := if c.sendReminder && decide (c.frequency < ri) then c.frequency else ri
    createDefaultNotifiers encrypt gen st cs ri (acc ++ [n])

/-- Embedding of createDefaultRouteAndReceiver: the root route always refers
either to the synthetic default receiver autogen-contact-point-default (zero
or several default channels) or, with exactly one default channel, to that
channel's receiver; only in the several-channels case is a new aggregate
receiver created, and with zero default channels the new receiver is empty. -/
def createDefaultRouteAndReceiver (encrypt : String → String) (gen : Nat → String)
    (st : MigState) (defaultChannels : List AlertNotification) :
    Except String (Option PostableApiReceiver × RootRoute × MigState) :=
  let defaultReceiverName := "autogen-contact-point-default"
  let defaultRoute : RootRoute :=
    { receiver := defaultReceiverName, routes := [],
      groupByStr := [FolderTitleLabel, AlertNameLabel], repeatInterval := none }
  let newDefaultReceiver : PostableApiReceiver :=
    { name := defaultReceiverName, grafanaManagedReceivers := [] }
  match defaultChannels with
  | [] => Except.ok (some newDefaultReceiver, defaultRoute, st)
  | [c] =>
    let ri := if c.sendReminder then c.frequency else DisabledRepeatInterval
    Except.ok (none,
      { defaultRoute with receiver := c.name, repeatInterval := some ri }, st)
  | cs => do
    let (ns, ri, st1) ← createDefaultNotifiers encrypt gen st cs DisabledRepeatInterval []
    Except.ok (some { newDefaultReceiver with grafanaManagedReceivers := ns },
      { defaultRoute with repeatInterval := some ri }, st1)

/-! ## Receiver filtering per rule and the contact-list label -/

/-- The set (insertion-ordered, duplicate-free list) of receiver names that a
rule's channel references resolve to; unresolvable references are dropped. -/
def resolvedReceiverNames (channelIDs : List UidOrID)
    (receivers : List (UidOrID × PostableApiReceiver)) : List String :=
  channelIDs.foldl
    (fun acc cid =>
      match lookupA receivers cid with
      | some recv => if recv.name ∈ acc then acc else acc ++ [recv.name]
      | none => acc) []

/-- Embedding of filterReceiversForAlert: none models the Go nil map (no
contact-list label); otherwise the resolved names together with all default
receiver names.  The Go code returns nil when no channels are referenced, when
nothing resolves, or when every resolved receiver is also a default one. -/
def filterReceiversForAlert (channelIDs : List UidOrID)
    (receivers : List (UidOrID × PostableApiReceiver))
    (defaultReceivers : List String) : Option (List String) :=
  if channelIDs = [] then none
  else
    let filteredReceiverNames := resolvedReceiverNames channelIDs receivers
    let coveredByDefault := filteredReceiverNames.all (fun n => decide (n ∈ defaultReceivers))
    if filteredReceiverNames = [] ∨ coveredByDefault then none
    else
      some (defaultReceivers.foldl
        (fun acc n => if n ∈ acc then acc else acc ++ [n]) filteredReceiverNames)

/-- Embedding of contactListToString: quote every name, sort, join by commas. -/
def contactListToString (m : List String) : String :=
  String.intercalate "," ((m.map quote).insertionSort (· ≤ ·))

/-! ## Per-organisation channel maps and setupAlertmanagerConfigs -/

/-- One row of the getNotificationChannelMap loop: skip discontinued channel
types, append the channel to its organisation's list, and also to the default
list when the channel is flagged default. -/
def getNotificationChannelMapStep
    (maps : List (Int × List AlertNotification) × List (Int × List AlertNotification))
    (c : AlertNotification) :
    List (Int × List AlertNotification) × List (Int × List AlertNotification) :=
  if c.type = "hipchat" ∨ c.type = "sensu" then maps
  else
    (appendA maps.1 c.orgId c,
     if c.isDefault then appendA maps.2 c.orgId c else maps.2)

/-- Embedding of getNotificationChannelMap over the channel rows read from the
store: all channels per organisation and the default channels per
organisation, skipping discontinued channel types. -/
def getNotificationChannelMap (allChannels : List AlertNotification) :
    List (Int × List AlertNotification) × List (Int × List AlertNotification) :=
  allChannels.foldl getNotificationChannelMapStep ([], [])

/-- The per-organisation body of setupAlertmanagerConfigs.  The Go code stores
an initially empty config in the result map and mutates it; the observable
result is the config value at the end of the org iteration, reproduced here:
the untouched empty config when no receivers survive (the loop continues), or
the fully built config otherwise.  Rule label updates, done in place in Go,
are returned alongside.  The receiver validation pass calls the external
alerting library and is a parameter. -/
def setupOrgAmConfig (encrypt : String → String) (gen : Nat → String)
    (validate : PostableUserConfig → Bool) (st : MigState)
    (orgRules : List (AlertRule × List UidOrID))
    (channels defaultChannels : List AlertNotification) :
    Except String (PostableUserConfig × List (AlertRule × List UidOrID) × MigState) := do
  let (receiversMap, receivers, st) ← createReceivers encrypt gen st channels
  if receivers.isEmpty then
    Except.ok ({ receivers := [], route := none }, orgRules, st)
  else
    let amReceivers := receivers.map (·.receiver)
    let defaultReceivers := defaultChannels.foldl
      (fun acc c => if c.name ∈ acc then acc else acc ++ [c.name]) []
    let (defaultReceiver, defaultRoute, st1) ←
      createDefaultRouteAndReceiver encrypt gen st defaultChannels
    let amReceivers := amReceivers ++
      (match defaultReceiver with | some r => [r] | none => [])
    let childRoutes ← receivers.mapM createRoute
    let route := { defaultRoute with routes := childRoutes }
    let updatedRules := orgRules.map (fun p =>
      match filterReceiversForAlert p.2 receiversMap defaultReceivers with
      | some names =>
        ({ p.1 with labels := setA p.1.labels ContactLabel (contactListToString names) }, p.2)
      | none => p)
    let amConfig : PostableUserConfig := { receivers := amReceivers, route := some route }
    if validate amConfig then Except.ok (amConfig, updatedRules, st1)
    else Except.error "failed to validate AlertmanagerConfig"

/-- One organisation of the setupAlertmanagerConfigs loop: fetch the default
channels and the rules of the organisation, build its configuration, and
append the results to the accumulators. -/
def setupOrgFoldStep (encrypt : String → String) (gen : Nat → String)
    (validate : PostableUserConfig → Bool)
    (defaultChannelsPerOrg : List (Int × List AlertNotification))
    (rulesPerOrg : List (Int × List (AlertRule × List UidOrID)))
    (acc : List (Int × PostableUserConfig) ×
      List (Int × List (AlertRule × List UidOrID)) × MigState)
    (entry : Int × List AlertNotification) :
    Except String (List (Int × PostableUserConfig) ×
      List (Int × List (AlertRule × List UidOrID)) × MigState) := do
  let defaultChannels := (lookupA defaultChannelsPerOrg entry.1).getD []
  let orgRules := (lookupA rulesPerOrg entry.1).getD []
  let (cfg, updatedRules, st) ←
    setupOrgAmConfig encrypt gen validate acc.2.2 orgRules entry.2 defaultChannels
  Except.ok (acc.1 ++ [(entry.1, cfg)], acc.2.1 ++ [(entry.1, updatedRules)], st)

/-- Embedding of setupAlertmanagerConfigs: build the per-organisation channel
maps from the channel rows, then produce one alertmanager configuration per
organisation that has at least one surviving notification channel, together
with the rules updated with contact-list labels. -/
def setupAlertmanagerConfigs (encrypt : String → String) (gen : Nat → String)
    (validate : PostableUserConfig → Bool) (st : MigState)
    (rulesPerOrg : List (Int × List (AlertRule × List UidOrID)))
    (allChannels : List AlertNotification) :
    Except String
      (List (Int × PostableUserConfig) × List (Int × List (AlertRule × List UidOrID)) × MigState) :=
  let maps := getNotificationChannelMap allChannels
  maps.1.foldlM
    (setupOrgFoldStep encrypt gen validate maps.2 rulesPerOrg) ([], [], st)

/-- Channel references of the C6 witness alert. -/
def wFilterIDs : List UidOrID := [UidOrID.uid "c1"]

/-- Receiver map of the C6 witness organisation. -/
def wFilterRecv : List (UidOrID × PostableApiReceiver) :=
  [(UidOrID.uid "c1", { name := "R1", grafanaManagedReceivers := [] })]

/-- Channel rows of the C1 witness: one organisation with one non-default
channel. -/
def wSetupChannels : List AlertNotification := [chanEx 5 1 "cu1" "chan1" "email" false]

/-- The result of setupAlertmanagerConfigs on the C1 witness input. -/
def wSetupRes : List (Int × PostableUserConfig) ×
    List (Int × List (AlertRule × List UidOrID)) × MigState :=
  exceptValue
    (setupAlertmanagerConfigs (fun s => s) (fun _ => "g") (fun _ => true)
      ⟨⟨[], false⟩, 0⟩ [] wSetupChannels)
    ([], [], ⟨⟨[], false⟩, 0⟩)

/-- The single per-organisation configuration produced for the C1 witness. -/
def wSetupPair : Int × PostableUserConfig :=
  wSetupRes.1.headD (0, { receivers := [], route := none })

/-! ## Theorems settling the claims -/

/-- C7: transNoData maps ok, empty, no-data, alerting, keep-last-state to OK,
NoData, NoData, Alerting, NoData respectively, and transExecErr maps empty,
alerting, keep-last-state, ok to Alerting, Alerting, Error, OK respectively;
every other input string falls back to the default (NoData, resp. Error). -/
theorem claim_C7_state_translations :
    transNoData noDataSetOK = NoDataState.OK ∧
    transNoData "" = NoDataState.NoData ∧
    transNoData noDataSetNoData = NoDataState.NoData ∧
    transNoData noDataSetAlerting = NoDataState.Alerting ∧
    transNoData noDataKeepState = NoDataState.NoData ∧
    (∀ s : String,
      s ∉ [noDataSetOK, "", noDataSetNoData, noDataSetAlerting, noDataKeepState] →
      transNoData s = NoDataState.NoData) ∧
    transExecErr "" = ExecutionErrorState.AlertingErrState ∧
    transExecErr executionErrorSetAlerting = ExecutionErrorState.AlertingErrState ∧
    transExecErr executionErrorKeepState = ExecutionErrorState.ErrorErrState ∧
    transExecErr executionErrorSetOk = ExecutionErrorState.OkErrState ∧
    (∀ s : String,
      s ∉ ["", executionErrorSetAlerting, executionErrorKeepState, executionErrorSetOk] →
      transExecErr s = ExecutionErrorState.ErrorErrState) := by
  refine ⟨by decide, by decide, by decide, by decide, by decide, ?_,
          by decide, by decide, by decide, by decide, ?_⟩
  · intro s hs
    simp only [List.mem_cons, List.not_mem_nil, or_false, not_or] at hs
    obtain ⟨h1, h2, h3, h4, h5⟩ := hs
    simp [transNoData, h1, h2, h3, h4, h5]
  · intro s hs
    simp only [List.mem_cons, List.not_mem_nil, or_false, not_or] at hs
    obtain ⟨h1, h2, h3, h4⟩ := hs
    simp [transExecErr, h1, h2, h3, h4]

/-- Witness for C7 evaluated at the unrecognized legacy value bogus-value. -/
theorem claim_C7_state_translations_witness :
    transNoData "bogus-value" = NoDataState.NoData ∧
    transExecErr "bogus-value" = ExecutionErrorState.ErrorErrState :=
  ⟨claim_C7_state_translations.2.2.2.2.2.1 "bogus-value" (by decide),
   claim_C7_state_translations.2.2.2.2.2.2.2.2.2.2 "bogus-value" (by decide)⟩

/-- C10: getAlertFolderNameFromDashboard is total exactly when MaxFolderName
minus the length of the folder template applied to the dashboard UID is
non-negative; when that cap is negative the Go slice index is negative and
the function panics (modelled as none) for every title. -/
theorem claim_C10_folder_name_panic (uid title : String) :
    ((DASHBOARD_FOLDER "" uid).length ≤ MaxFolderName →
      (getAlertFolderNameFromDashboard uid title).isSome = true) ∧
    (MaxFolderName < (DASHBOARD_FOLDER "" uid).length →
      getAlertFolderNameFromDashboard uid title = none) := by
  constructor
  · intro h
    have h2 : ¬ ((MaxFolderName : Int) - ((DASHBOARD_FOLDER "" uid).length : Int) < 0) := by
      omega
    simp only [getAlertFolderNameFromDashboard]
    split
    · simp [h2]
    · simp
  · intro h
    have h2 : (MaxFolderName : Int) - ((DASHBOARD_FOLDER "" uid).length : Int) < 0 := by
      omega
    have h1 : ((title.length : Int) >
        (MaxFolderName : Int) - ((DASHBOARD_FOLDER "" uid).length : Int)) := by
      omega
    simp only [getAlertFolderNameFromDashboard]
    rw [if_pos h1, if_pos h2]

/-- Witness for C10: a short UID gives a total computation, while a 246-char
UID drives the cap negative and the function panics. -/
theorem claim_C10_folder_name_panic_witness :
    (getAlertFolderNameFromDashboard "dashuid" "My Dashboard").isSome = true ∧
    getAlertFolderNameFromDashboard (String.mk (List.replicate 246 'a')) "t" = none :=
  ⟨(claim_C10_folder_name_panic "dashuid" "My Dashboard").1 (by decide),
   (claim_C10_folder_name_panic (String.mk (List.replicate 246 'a')) "t").2 (by decide)⟩

/-- C2 counterexample: two rules in namespace ns whose titles both truncate to
abc (maximum title length 3).  The second rule's final title is the truncated
title followed by a space and its UID, not an underscore, and its length
exceeds the maximum title length. -/
theorem claim_C2_title_dedup_counterexample :
    ((insertRules
        [{ orgID := 1, uid := "uid1", title := truncateRuleName 3 "abcd",
           namespaceUID := "ns", ruleGroup := "g", labels := [] },
         { orgID := 1, uid := "uid2", title := truncateRuleName 3 "abcd",
           namespaceUID := "ns", ruleGroup := "g", labels := [] }]).map
      AlertRule.title).get? 1 = some "abc uid2" ∧
    ¬ ("abc uid2" = truncateRuleName 3 "abcd" ++ "_" ++ "uid2" ∧
       ("abc uid2").length ≤ 3) := by
  decide

/-- C2 as amended: when two rules of the same namespace carry the same
truncated title, insertRules leaves the first unchanged and renames the
second to the truncated title followed by a space and its rule UID; the
combined length is the sum of the parts plus one and is not re-checked
against the maximum. -/
theorem claim_C2_title_dedup (maxTitleLength : Nat) (n1 n2 uid1 uid2 ns g1 g2 : String)
    (orgId : Int)
    (h : truncateRuleName maxTitleLength n1 = truncateRuleName maxTitleLength n2) :
    (insertRules
        [{ orgID := orgId, uid := uid1, title := truncateRuleName maxTitleLength n1,
           namespaceUID := ns, ruleGroup := g1, labels := [] },
         { orgID := orgId, uid := uid2, title := truncateRuleName maxTitleLength n2,
           namespaceUID := ns, ruleGroup := g2, labels := [] }]).map AlertRule.title =
      [truncateRuleName maxTitleLength n1,
       truncateRuleName maxTitleLength n2 ++ " " ++ uid2] ∧
    (truncateRuleName maxTitleLength n2 ++ " " ++ uid2).length =
      (truncateRuleName maxTitleLength n2).length + 1 + uid2.length := by
  constructor
  · simp [insertRules, insertRulesStep, lookupA, setA, h]
  · simp [String.length_append, show (" " : String).length = 1 from rfl]

/-- Witness for C2 as amended, at maximum title length 3 and alert name abcd. -/
theorem claim_C2_title_dedup_witness :
    (insertRules
        [{ orgID := 1, uid := "uid1", title := truncateRuleName 3 "abcd",
           namespaceUID := "ns", ruleGroup := "g", labels := [] },
         { orgID := 1, uid := "uid2", title := truncateRuleName 3 "abcd",
           namespaceUID := "ns", ruleGroup := "g", labels := [] }]).map AlertRule.title =
      [truncateRuleName 3 "abcd", truncateRuleName 3 "abcd" ++ " " ++ "uid2"] ∧
    (truncateRuleName 3 "abcd" ++ " " ++ "uid2").length =
      (truncateRuleName 3 "abcd").length + 1 + ("uid2" : String).length :=
  claim_C2_title_dedup 3 "abcd" "abcd" "uid1" "uid2" "ns" "g" "g" 1 rfl

/-- C3: cleanup after a failed or reverted dashboard migration deletes a
folder only when its UID is recorded in CreatedFolders (and then removes it
from that record, erasing the first occurrence); rule deletions are drawn
from the recorded migrated alerts; when no folder is deleted the migration
state is unchanged.  Pre-existing folders, never recorded in CreatedFolders,
are therefore never deleted. -/
theorem claim_C3_cleanup_frame (state : OrgMigrationState) (du : Option DashboardUpgrade) :
    (∀ f ∈ (cleanupDashboardAlerts state du).1.deletedFolderUIDs,
      f ∈ state.createdFolders) ∧
    (∀ f ∈ (cleanupDashboardAlerts state du).1.deletedFolderUIDs,
      (cleanupDashboardAlerts state du).2.createdFolders = state.createdFolders.erase f) ∧
    (∀ r ∈ (cleanupDashboardAlerts state du).1.deletedRuleUIDs,
      ∃ du0, du = some du0 ∧ r ∈ du0.migratedAlerts.map (fun p => p.ruleUID)) ∧
    ((cleanupDashboardAlerts state du).1.deletedFolderUIDs = [] →
      (cleanupDashboardAlerts state du).2 = state) := by
  cases du with
  | none => simp [cleanupDashboardAlerts]
  | some du0 =>
    have hrules : ∀ r ∈ (cleanupDashboardAlerts state (some du0)).1.deletedRuleUIDs,
        ∃ du1, (some du0 : Option DashboardUpgrade) = some du1 ∧
          r ∈ du1.migratedAlerts.map (fun p => p.ruleUID) := by
      intro r hr
      refine ⟨du0, rfl, ?_⟩
      have hsub : (du0.migratedAlerts.filter
          (fun p => p.hasRule && p.ruleUID ≠ "")).map (fun p => p.ruleUID) ⊆
          du0.migratedAlerts.map (fun p => p.ruleUID) :=
        List.map_subset _ (List.filter_subset' _)
      apply hsub
      revert hr
      simp only [cleanupDashboardAlerts]
      split
      · split
        · exact fun hr => hr
        · exact fun hr => hr
      · exact fun hr => hr
    refine ⟨?_, ?_, hrules, ?_⟩ <;> simp only [cleanupDashboardAlerts] <;> split
    · split
      · intro f hf
        simp only [List.mem_singleton] at hf
        subst hf
        assumption
      · simp
    · simp
    · split
      · intro f hf
        simp only [List.mem_singleton] at hf
        subst hf
        rfl
      · simp
    · simp
    · split
      · intro h
        simp at h
      · intro h
        rfl
    · intro h
      rfl

/-- Witness for C3: a recorded created folder f1 is deleted and removed from
the record; the pre-existing folder list keeps f2. -/
theorem claim_C3_cleanup_frame_witness :
    "f1" ∈ OrgMigrationState.createdFolders ⟨["f1", "f2"]⟩ ∧
    (cleanupDashboardAlerts ⟨["f1", "f2"]⟩
        (some ⟨[⟨true, "r1"⟩], "orig", "f1", "name"⟩)).2.createdFolders =
      (["f1", "f2"].erase "f1") ∧
    ∃ du0, (some (⟨[⟨true, "r1"⟩], "orig", "f1", "name"⟩ : DashboardUpgrade)) = some du0 ∧
      "r1" ∈ du0.migratedAlerts.map (fun p => p.ruleUID) := by
  refine ⟨?_, ?_, ?_⟩
  · exact (claim_C3_cleanup_frame ⟨["f1", "f2"]⟩
      (some ⟨[⟨true, "r1"⟩], "orig", "f1", "name"⟩)).1 "f1" (by decide)
  · exact (claim_C3_cleanup_frame ⟨["f1", "f2"]⟩
      (some ⟨[⟨true, "r1"⟩], "orig", "f1", "name"⟩)).2.1 "f1" (by decide)
  · exact (claim_C3_cleanup_frame ⟨["f1", "f2"]⟩
      (some ⟨[⟨true, "r1"⟩], "orig", "f1", "name"⟩)).2.2.1 "r1" (by decide)

theorem generateUidFrom_all_contained (gen : Nat → String) :
    ∀ (n idx : Nat) (s : UidSet), (∀ i < n, s.contains (gen (idx + i)) = true) →
      generateUidFrom gen n idx s = Except.error "failed to generate UID" := by
  intro n
  induction n with
  | zero => intro idx s h; rfl
  | succ m ih =>
    intro idx s h
    have h0 : s.contains (gen idx) = true := by simpa using h 0 (Nat.succ_pos m)
    have hrest : ∀ i < m, s.contains (gen (idx + 1 + i)) = true := by
      intro i hi
      have heq : idx + 1 + i = idx + (i + 1) := by omega
      rw [heq]
      exact h (i + 1) (by omega)
    simp only [generateUidFrom, h0, if_true]
    exact ih (idx + 1) s hrest

theorem generateUidFrom_first_fresh (gen : Nat → String) :
    ∀ (n i idx : Nat) (s : UidSet), i < n →
      (∀ j < i, s.contains (gen (idx + j)) = true) →
      s.contains (gen (idx + i)) = false →
      generateUidFrom gen n idx s =
        Except.ok (gen (idx + i), s.add (gen (idx + i)), idx + i + 1) := by
  intro n
  induction n with
  | zero => intro i idx s hi; omega
  | succ m ih =>
    intro i idx s hi hprev hfresh
    cases i with
    | zero =>
      simp only [Nat.add_zero] at hfresh ⊢
      simp [generateUidFrom, hfresh]
    | succ k =>
      have h0 : s.contains (gen idx) = true := by simpa using hprev 0 (Nat.succ_pos k)
      have hprev1 : ∀ j < k, s.contains (gen (idx + 1 + j)) = true := by
        intro j hj
        have heq : idx + 1 + j = idx + (j + 1) := by omega
        rw [heq]
        exact hprev (j + 1) (by omega)
      have hfresh1 : s.contains (gen (idx + 1 + k)) = false := by
        have heq : idx + 1 + k = idx + (k + 1) := by omega
        rw [heq]
        exact hfresh
      have hres := ih k (idx + 1) s (by omega) hprev1 hfresh1
      simp only [generateUidFrom, h0, if_true]
      rw [hres]
      have heq : idx + 1 + k = idx + (k + 1) := by omega
      rw [heq]

/-- C4: determineChannelUid reuses a non-empty legacy UID that is not already
seen (with case-insensitive comparison folded into UidSet.contains when the
dialect requires it); an empty or colliding UID falls through to generateUid,
which tries at most five candidates from the generator stream, succeeds on the
first fresh one, and returns an error when all five are already seen. -/
theorem claim_C4_uid_allocation (gen : Nat → String) (idx : Nat) (s : UidSet)
    (c : AlertNotification) :
    (c.uid ≠ "" → s.contains c.uid = false →
      determineChannelUid gen idx s c = Except.ok (c.uid, s, idx)) ∧
    ((c.uid = "" ∨ s.contains c.uid = true) →
      determineChannelUid gen idx s c = UidSet.generateUid gen idx s) ∧
    ((∀ i < 5, s.contains (gen (idx + i)) = true) →
      UidSet.generateUid gen idx s = Except.error "failed to generate UID") ∧
    (∀ i, i < 5 → (∀ j < i, s.contains (gen (idx + j)) = true) →
      s.contains (gen (idx + i)) = false →
      UidSet.generateUid gen idx s =
        Except.ok (gen (idx + i), s.add (gen (idx + i)), idx + i + 1)) := by
  refine ⟨?_, ?_, ?_, ?_⟩
  · intro hne hfree
    simp [determineChannelUid, hne, hfree]
  · intro h
    rcases h with h | h
    · simp [determineChannelUid, h]
    · by_cases hne : c.uid = ""
      · simp [determineChannelUid, hne]
      · simp [determineChannelUid, hne, h]
  · intro h
    exact generateUidFrom_all_contained gen 5 idx s h
  · intro i hi hprev hfresh
    exact generateUidFrom_first_fresh gen 5 i idx s hi hprev hfresh

/-- Witness for C4: a fresh legacy UID is reused; a full seen-set exhausts all
five attempts; the third candidate is taken when the first two collide; an
empty legacy UID falls through to generation. -/
theorem claim_C4_uid_allocation_witness :
    determineChannelUid (fun n => "g" ++ toString n) 0 ⟨[], false⟩
        (chanEx 1 1 "legacy1" "n1" "email" false) =
      Except.ok ("legacy1", ⟨[], false⟩, 0) ∧
    UidSet.generateUid (fun n => "g" ++ toString n) 0
        ⟨["g0", "g1", "g2", "g3", "g4"], false⟩ =
      Except.error "failed to generate UID" ∧
    UidSet.generateUid (fun n => "g" ++ toString n) 0 ⟨["g0", "g1"], false⟩ =
      Except.ok ("g2", UidSet.add ⟨["g0", "g1"], false⟩ "g2", 3) ∧
    determineChannelUid (fun n => "g" ++ toString n) 0 ⟨["x"], false⟩
        (chanEx 1 1 "" "n1" "email" false) =
      UidSet.generateUid (fun n => "g" ++ toString n) 0 ⟨["x"], false⟩ := by
  refine ⟨?_, ?_, ?_, ?_⟩
  · exact (claim_C4_uid_allocation (fun n => "g" ++ toString n) 0 ⟨[], false⟩
      (chanEx 1 1 "legacy1" "n1" "email" false)).1 (by decide) (by decide)
  · exact (claim_C4_uid_allocation (fun n => "g" ++ toString n) 0
      ⟨["g0", "g1", "g2", "g3", "g4"], false⟩
      (chanEx 1 1 "x" "n1" "email" false)).2.2.1 (by decide)
  · have := (claim_C4_uid_allocation (fun n => "g" ++ toString n) 0
      ⟨["g0", "g1"], false⟩ (chanEx 1 1 "x" "n1" "email" false)).2.2.2
      2 (by decide) (by decide) (by decide)
    simpa using this
  · exact (claim_C4_uid_allocation (fun n => "g" ++ toString n) 0 ⟨["x"], false⟩
      (chanEx 1 1 "" "n1" "email" false)).2.1 (Or.inl rfl)

/-- C8: a query whose datasource type resolves to prometheus and which has
instant = true and range = true is rewritten to instant = false with range and
every other field unchanged; a query whose datasource type is non-Prometheus,
or whose datasource is missing or unparseable, is returned unchanged by this
fix regardless of its flags. -/
theorem claim_C8_prometheus_both_query (queryData : List (String × Json)) :
    (lookupA queryData "instant" = some (Json.bool true) →
     lookupA queryData "range" = some (Json.bool true) →
     isPrometheusQuery queryData = Except.ok true →
      fixPrometheusBothTypeQuery queryData = setA queryData "instant" (Json.bool false) ∧
      lookupA (fixPrometheusBothTypeQuery queryData) "instant" = some (Json.bool false) ∧
      lookupA (fixPrometheusBothTypeQuery queryData) "range" = some (Json.bool true) ∧
      (∀ k, k ≠ "instant" →
        lookupA (fixPrometheusBothTypeQuery queryData) k = lookupA queryData k)) ∧
    (isPrometheusQuery queryData = Except.ok false →
      fixPrometheusBothTypeQuery queryData = queryData) ∧
    (∀ e, isPrometheusQuery queryData = Except.error e →
      fixPrometheusBothTypeQuery queryData = queryData) := by
  refine ⟨?_, ?_, ?_⟩
  · intro hInstant hRange hProm
    have hfix : fixPrometheusBothTypeQuery queryData =
        setA queryData "instant" (Json.bool false) := by
      simp [fixPrometheusBothTypeQuery, hInstant, hRange, hProm, unmarshalBool]
    refine ⟨hfix, ?_, ?_, ?_⟩
    · rw [hfix]
      exact lookupA_setA_self queryData "instant" (Json.bool false)
    · rw [hfix, lookupA_setA_ne queryData "instant" "range" (Json.bool false) (by decide)]
      exact hRange
    · intro k hk
      rw [hfix, lookupA_setA_ne queryData "instant" k (Json.bool false) hk]
  · intro hProm
    unfold fixPrometheusBothTypeQuery
    split
    · rfl
    · split
      · rfl
      · split
        · rfl
        · rw [hProm]
  · intro e hProm
    unfold fixPrometheusBothTypeQuery
    split
    · rfl
    · split
      · rfl
      · split
        · rfl
        · rw [hProm]

/-- Witness for C8: the dual-mode Prometheus query of the migration tests is
rewritten to range-only, and the same query against a non-Prometheus
datasource is untouched. -/
theorem claim_C8_prometheus_both_query_witness :
    fixPrometheusBothTypeQuery
        [("datasource", Json.obj [("type", Json.str "prometheus")]),
         ("instant", Json.bool true), ("range", Json.bool true)] =
      setA
        [("datasource", Json.obj [("type", Json.str "prometheus")]),
         ("instant", Json.bool true), ("range", Json.bool true)]
        "instant" (Json.bool false) ∧
    fixPrometheusBothTypeQuery
        [("datasource", Json.obj [("type", Json.str "something")]),
         ("instant", Json.bool true), ("range", Json.bool true)] =
      [("datasource", Json.obj [("type", Json.str "something")]),
       ("instant", Json.bool true), ("range", Json.bool true)] :=
  ⟨((claim_C8_prometheus_both_query
      [("datasource", Json.obj [("type", Json.str "prometheus")]),
       ("instant", Json.bool true), ("range", Json.bool true)]).1
      rfl rfl rfl).1,
   (claim_C8_prometheus_both_query
      [("datasource", Json.obj [("type", Json.str "something")]),
       ("instant", Json.bool true), ("range", Json.bool true)]).2.1 rfl⟩

theorem lookupA_delA_self {κ α : Type} [DecidableEq κ] (l : List (κ × α)) (k : κ) :
    lookupA (delA l k) k = none := by
  induction l with
  | nil => rfl
  | cons hd tl ih =>
    obtain ⟨k2, v2⟩ := hd
    by_cases h : k2 = k
    · simpa [delA, lookupA, h] using ih
    · simpa [delA, lookupA, h] using ih

theorem lookupA_delA_ne {κ α : Type} [DecidableEq κ] (l : List (κ × α)) (k k1 : κ)
    (h : k1 ≠ k) : lookupA (delA l k) k1 = lookupA l k1 := by
  induction l with
  | nil => rfl
  | cons hd tl ih =>
    obtain ⟨k2, v2⟩ := hd
    by_cases h2 : k2 = k
    · simpa [delA, lookupA, h2, Ne.symm h] using ih
    · by_cases h3 : k2 = k1
      · simp [delA, lookupA, h2, h3, h]
      · simpa [delA, lookupA, h2, h3] using ih

theorem lookupA_map_values {κ α β : Type} [DecidableEq κ] (l : List (κ × α)) (f : α → β)
    (k : κ) : lookupA (l.map (fun p => (p.1, f p.2))) k = (lookupA l k).map f := by
  induction l with
  | nil => rfl
  | cons hd tl ih =>
    by_cases h : hd.1 = k
    · simp [lookupA, h]
    · simpa [lookupA, h] using ih

theorem migrateSecureKeyStep_self (acc : List (String × Json) × List (String × String))
    (k : String) :
    (lookupA (migrateSecureKeyStep acc k).1 k, lookupA (migrateSecureKeyStep acc k).2 k) =
      migrateKeyLookups (lookupA acc.1 k) (lookupA acc.2 k) := by
  unfold migrateSecureKeyStep migrateKeyLookups
  by_cases hs : optionHasValue (lookupA acc.2 k) = true
  · simp only [hs, if_true]
  · simp only [Bool.not_eq_true] at hs
    simp only [hs, Bool.false_eq_true, if_false]
    by_cases hv : Json.mustString (lookupA acc.1 k) ≠ ""
    · simp [hv, lookupA_delA_self, lookupA_setA_self]
    · simp [hv]

theorem migrateSecureKeyStep_ne (acc : List (String × Json) × List (String × String))
    (k k1 : String) (h : k1 ≠ k) :
    lookupA (migrateSecureKeyStep acc k).1 k1 = lookupA acc.1 k1 ∧
    lookupA (migrateSecureKeyStep acc k).2 k1 = lookupA acc.2 k1 := by
  unfold migrateSecureKeyStep
  by_cases hs : optionHasValue (lookupA acc.2 k) = true
  · simp [hs]
  · simp only [Bool.not_eq_true] at hs
    simp only [hs, Bool.false_eq_true, if_false]
    by_cases hv : Json.mustString (lookupA acc.1 k) ≠ ""
    · rw [if_pos hv]
      exact ⟨lookupA_delA_ne acc.1 k k1 h, lookupA_setA_ne acc.2 k k1 _ h⟩
    · rw [if_neg hv]
      exact ⟨rfl, rfl⟩

theorem migrateFold_not_mem (ks : List String)
    (acc : List (String × Json) × List (String × String)) (k : String) (h : k ∉ ks) :
    lookupA (ks.foldl migrateSecureKeyStep acc).1 k = lookupA acc.1 k ∧
    lookupA (ks.foldl migrateSecureKeyStep acc).2 k = lookupA acc.2 k := by
  induction ks generalizing acc with
  | nil => exact ⟨rfl, rfl⟩
  | cons hd tl ih =>
    have hne : k ≠ hd := fun heq => h (heq ▸ List.mem_cons_self hd tl)
    have htl : k ∉ tl := fun hmem => h (List.mem_cons_of_mem hd hmem)
    have hstep := migrateSecureKeyStep_ne acc hd k hne
    have hrest := ih (migrateSecureKeyStep acc hd) htl
    exact ⟨hrest.1.trans hstep.1, hrest.2.trans hstep.2⟩

theorem migrateFold_mem (ks : List String)
    (acc : List (String × Json) × List (String × String)) (k : String)
    (hnd : ks.Nodup) (hk : k ∈ ks) :
    (lookupA (ks.foldl migrateSecureKeyStep acc).1 k,
     lookupA (ks.foldl migrateSecureKeyStep acc).2 k) =
      migrateKeyLookups (lookupA acc.1 k) (lookupA acc.2 k) := by
  induction ks generalizing acc with
  | nil => cases hk
  | cons hd tl ih =>
    rcases List.mem_cons.mp hk with heq | hmem
    · subst heq
      have htl : k ∉ tl := (List.nodup_cons.mp hnd).1
      have hrest := migrateFold_not_mem tl (migrateSecureKeyStep acc k) k htl
      have hstep := migrateSecureKeyStep_self acc k
      simp only [List.foldl_cons]
      rw [hrest.1, hrest.2]
      exact hstep
    · have hne : k ≠ hd := by
        intro heq
        exact (List.nodup_cons.mp hnd).1 (heq ▸ hmem)
      have hstep := migrateSecureKeyStep_ne acc hd k hne
      simp only [List.foldl_cons]
      rw [ih (migrateSecureKeyStep acc hd) (List.nodup_cons.mp hnd).2 hmem,
        hstep.1, hstep.2]

theorem secureKeysToMigrate_nodup (chanType : String) :
    (secureKeysToMigrate chanType).Nodup := by
  unfold secureKeysToMigrate
  split_ifs <;> decide

/-- C9: for every channel type, the settings transcoder moves each key of the
type-to-secure-key table out of the plaintext settings and into the secure
settings exactly when the decrypted secure settings do not already hold a
non-empty value for it and the plaintext value is a non-empty string (the
moved key is deleted from the returned plaintext settings); keys outside the
table are untouched on both sides; and every value of the returned
secure-settings map is the encryption of its pre-encryption value. -/
theorem claim_C9_settings_transcoder (encrypt : String → String) (chanType : String)
    (settings : List (String × Json)) (secure : List (String × String)) :
    (∀ p ∈ (migrateSettingsToSecureSettings encrypt chanType settings secure).2,
      ∃ v0, p.2 = encrypt v0) ∧
    (∀ k ∈ secureKeysToMigrate chanType,
      (∀ v, lookupA secure k = some v → v ≠ "" →
        lookupA (migrateSettingsToSecureSettings encrypt chanType settings secure).2 k =
          some (encrypt v) ∧
        lookupA (migrateSettingsToSecureSettings encrypt chanType settings secure).1 k =
          lookupA settings k) ∧
      ((lookupA secure k = none ∨ lookupA secure k = some "") →
        (Json.mustString (lookupA settings k) ≠ "" →
          lookupA (migrateSettingsToSecureSettings encrypt chanType settings secure).2 k =
            some (encrypt (Json.mustString (lookupA settings k))) ∧
          lookupA (migrateSettingsToSecureSettings encrypt chanType settings secure).1 k =
            none) ∧
        (Json.mustString (lookupA settings k) = "" →
          lookupA (migrateSettingsToSecureSettings encrypt chanType settings secure).2 k =
            (lookupA secure k).map encrypt ∧
          lookupA (migrateSettingsToSecureSettings encrypt chanType settings secure).1 k =
            lookupA settings k))) ∧
    (∀ k, k ∉ secureKeysToMigrate chanType →
      lookupA (migrateSettingsToSecureSettings encrypt chanType settings secure).1 k =
        lookupA settings k ∧
      lookupA (migrateSettingsToSecureSettings encrypt chanType settings secure).2 k =
        (lookupA secure k).map encrypt) := by
  have hout2 : ∀ k, lookupA (migrateSettingsToSecureSettings encrypt chanType settings secure).2 k
      = (lookupA ((secureKeysToMigrate chanType).foldl migrateSecureKeyStep
          (settings, secure)).2 k).map encrypt := by
    intro k
    unfold migrateSettingsToSecureSettings encryptSecureSettings
    exact lookupA_map_values _ encrypt k
  have hout1 : (migrateSettingsToSecureSettings encrypt chanType settings secure).1
      = ((secureKeysToMigrate chanType).foldl migrateSecureKeyStep (settings, secure)).1 := by
    unfold migrateSettingsToSecureSettings
    rfl
  refine ⟨?_, ?_, ?_⟩
  · intro p hp
    unfold migrateSettingsToSecureSettings encryptSecureSettings at hp
    rcases List.mem_map.mp hp with ⟨q, hq, hpq⟩
    exact ⟨q.2, by rw [← hpq]⟩
  · intro k hk
    have hmem := migrateFold_mem (secureKeysToMigrate chanType) (settings, secure) k
      (secureKeysToMigrate_nodup chanType) hk
    have h1 := congrArg Prod.fst hmem
    have h2 := congrArg Prod.snd hmem
    simp only at h1 h2
    constructor
    · intro v hv hvne
      have hskip : migrateKeyLookups (lookupA settings k) (lookupA secure k) =
          (lookupA settings k, lookupA secure k) := by
        have hov : optionHasValue (lookupA secure k) = true := by
          rw [hv]
          simp [optionHasValue, hvne]
        simp [migrateKeyLookups, hov]
      rw [hskip] at h1 h2
      refine ⟨?_, by rw [hout1, h1]⟩
      rw [hout2, h2, hv]
      rfl
    · intro hsec
      have hskipf : optionHasValue (lookupA secure k) = false := by
        rcases hsec with h | h <;> simp [h, optionHasValue]
      constructor
      · intro hsv
        have hmove : migrateKeyLookups (lookupA settings k) (lookupA secure k) =
            (none, some (Json.mustString (lookupA settings k))) := by
          simp [migrateKeyLookups, hskipf, hsv]
        rw [hmove] at h1 h2
        refine ⟨?_, by rw [hout1, h1]⟩
        rw [hout2, h2]
        rfl
      · intro hsv
        have hstay : migrateKeyLookups (lookupA settings k) (lookupA secure k) =
            (lookupA settings k, lookupA secure k) := by
          simp [migrateKeyLookups, hskipf, hsv]
        rw [hstay] at h1 h2
        exact ⟨by rw [hout2, h2], by rw [hout1, h1]⟩
  · intro k hk
    have hnm := migrateFold_not_mem (secureKeysToMigrate chanType) (settings, secure) k hk
    exact ⟨by rw [hout1, hnm.1], by rw [hout2, hnm.2]⟩

/-- Witness for C9 on a slack channel: the plaintext url moves into the secure
settings encrypted and is deleted from the plaintext settings; the already
secure token stays and is encrypted; a non-table key is untouched. -/
theorem claim_C9_settings_transcoder_witness :
    lookupA (migrateSettingsToSecureSettings (fun s => "enc:" ++ s) "slack"
        [("url", Json.str "https://hook"), ("other", Json.num 1)]
        [("token", "tok")]).2 "url" = some ("enc:" ++ "https://hook") ∧
    lookupA (migrateSettingsToSecureSettings (fun s => "enc:" ++ s) "slack"
        [("url", Json.str "https://hook"), ("other", Json.num 1)]
        [("token", "tok")]).1 "url" = none ∧
    lookupA (migrateSettingsToSecureSettings (fun s => "enc:" ++ s) "slack"
        [("url", Json.str "https://hook"), ("other", Json.num 1)]
        [("token", "tok")]).2 "token" = some ("enc:" ++ "tok") ∧
    lookupA (migrateSettingsToSecureSettings (fun s => "enc:" ++ s) "slack"
        [("url", Json.str "https://hook"), ("other", Json.num 1)]
        [("token", "tok")]).1 "other" = some (Json.num 1) := by
  have h := claim_C9_settings_transcoder (fun s => "enc:" ++ s) "slack"
    [("url", Json.str "https://hook"), ("other", Json.num 1)] [("token", "tok")]
  refine ⟨?_, ?_, ?_, ?_⟩
  · exact (((h.2.1 "url" (by decide)).2 (Or.inl rfl)).1 (by decide)).1
  · exact (((h.2.1 "url" (by decide)).2 (Or.inl rfl)).1 (by decide)).2
  · exact ((h.2.1 "token" (by decide)).1 "tok" rfl (by decide)).1
  · exact (h.2.2 "other" (by decide)).1

theorem createReceiversGo_names (encrypt : String → String) (gen : Nat → String) :
    ∀ (cs : List AlertNotification) (st : MigState) (set : List String)
      (rmap : List (UidOrID × PostableApiReceiver)) (rs : List ChannelReceiver) res,
      createReceiversGo encrypt gen st set cs rmap rs = Except.ok res →
      res.2.1.map (fun cr => cr.receiver.name) =
        rs.map (fun cr => cr.receiver.name) ++ receiverFinalNamesAux set (cs.map (·.name)) := by
  intro cs
  induction cs with
  | nil =>
    intro st set rmap rs res h
    simp only [createReceiversGo] at h
    cases h
    simp [receiverFinalNamesAux]
  | cons c cs ih =>
    intro st set rmap rs res h
    cases hcn : createNotifier encrypt gen st c with
    | error e =>
      simp only [createReceiversGo, hcn, bind, Except.bind] at h
      cases h
    | ok pr =>
      obtain ⟨notifier, st2⟩ := pr
      simp only [createReceiversGo, hcn, bind, Except.bind] at h
      have hres := ih _ _ _ _ _ h
      rw [hres]
      simp [receiverFinalNamesAux, List.map_append, List.append_assoc]

theorem receiverFinalNamesAux_nodup :
    ∀ (ns : List String) (set : List String), set.Nodup →
      suffixedFresh set ns = true → (set ++ receiverFinalNamesAux set ns).Nodup := by
  intro ns
  induction ns with
  | nil =>
    intro set hnd _
    simpa [receiverFinalNamesAux] using hnd
  | cons n rest ih =>
    intro set hnd hf
    simp only [suffixedFresh, Bool.and_eq_true, Bool.or_eq_true, decide_eq_true_eq] at hf
    obtain ⟨hfree, hrest⟩ := hf
    have hfnotin : (if sanitizeName n ∈ set then
        sanitizeName n ++ "_" ++ md5hex3 n else sanitizeName n) ∉ set := by
      by_cases hs : sanitizeName n ∈ set
      · rcases hfree with hfree | hfree
        · exact absurd hs hfree
        · simpa [hs] using hfree
      · simp [hs]
    have hnd2 : (set ++ [if sanitizeName n ∈ set then
        sanitizeName n ++ "_" ++ md5hex3 n else sanitizeName n]).Nodup := by
      rw [List.nodup_append]
      exact ⟨hnd, List.nodup_singleton _, by
        intro a ha hb
        simp only [List.mem_singleton] at hb
        exact hfnotin (hb ▸ ha)⟩
    have hih := ih _ hnd2 hrest
    simpa [receiverFinalNamesAux, List.append_assoc] using hih

/-- C5 counterexample: three notification channels with pairwise-distinct
names whose migrated receiver names collide.  The first channel's name equals
the hash-suffixed name a__576e09; the second sanitizes to a_; the third also
sanitizes to a_, collides, and receives the suffix _576e09 (the short MD5
hash of a_), reproducing the first receiver's name.  The receiver name set of
one organisation therefore contains a duplicate. -/
theorem claim_C5_receiver_names_counterexample :
    ([cexChanA.name, cexChanB.name, cexChanC.name] : List String).Nodup ∧
    receiverNamesOf (createReceivers (fun s => s) (fun _ => "gen")
        ⟨⟨[], false⟩, 0⟩ [cexChanA, cexChanB, cexChanC]) =
      some ["a__576e09", "a_", "a__576e09"] ∧
    ¬ (["a__576e09", "a_", "a__576e09"] : List String).Nodup := by
  refine ⟨by decide, by decide, by decide⟩

/-- C5 as amended: receiver names are sanitized by replacing double quotes and
de-duplicated by appending a short MD5 hash of the original name on collision;
the resulting names are pairwise distinct provided every hash-suffixed
replacement is itself fresh among the receiver names (the code does not
re-check the suffixed name, so this proviso is necessary, as the
counterexample shows). -/
theorem claim_C5_receiver_names (encrypt : String → String) (gen : Nat → String)
    (st : MigState) (cs : List AlertNotification)
    (res : List (UidOrID × PostableApiReceiver) × List ChannelReceiver × MigState)
    (hfresh : suffixedFresh [] (cs.map (·.name)) = true)
    (hok : createReceivers encrypt gen st cs = Except.ok res) :
    (res.2.1.map (fun cr => cr.receiver.name)).Nodup := by
  have hnames := createReceiversGo_names encrypt gen cs st [] [] [] res hok
  have hnodup := receiverFinalNamesAux_nodup (cs.map (·.name)) [] List.nodup_nil hfresh
  rw [hnames]
  simpa using hnodup

/-- Witness for C5 as amended, on two collision-free channels. -/
theorem claim_C5_receiver_names_witness :
    (wReceiversRes.2.1.map (fun cr => cr.receiver.name)).Nodup :=
  claim_C5_receiver_names (fun s => s) (fun _ => "gen") ⟨⟨[], false⟩, 0⟩
    [wChan1, wChan2] wReceiversRes (by decide) (by rfl)

theorem mem_foldl_insert (ds : List String) :
    ∀ (acc : List String) (x : String),
      x ∈ ds.foldl (fun acc n => if n ∈ acc then acc else acc ++ [n]) acc ↔
        x ∈ acc ∨ x ∈ ds := by
  induction ds with
  | nil =>
    intro acc x
    simp
  | cons d ds ih =>
    intro acc x
    simp only [List.foldl_cons]
    by_cases h : d ∈ acc
    · rw [if_pos h, ih]
      constructor
      · rintro (hx | hx)
        · exact Or.inl hx
        · exact Or.inr (List.mem_cons_of_mem _ hx)
      · rintro (hx | hx)
        · exact Or.inl hx
        · rcases List.mem_cons.mp hx with rfl | hx
          · exact Or.inl h
          · exact Or.inr hx
    · rw [if_neg h, ih]
      simp only [List.mem_append, List.mem_cons, List.mem_singleton]
      tauto

/-- C6 counterexample: an alert referencing one channel whose receiver D1 is
a default receiver, in an organisation whose default receiver set is D1, D2.
The resolved receiver set is the non-empty set containing exactly D1, which
differs from the default set (D2 is missing), yet the code attaches no
contact-list label (it returns the nil set because the resolved set is merely
a subset of the defaults). -/
theorem claim_C6_contact_label_counterexample :
    filterReceiversForAlert [UidOrID.uid "d1"]
        [(UidOrID.uid "d1", { name := "D1", grafanaManagedReceivers := [] })]
        ["D1", "D2"] = none ∧
    resolvedReceiverNames [UidOrID.uid "d1"]
        [(UidOrID.uid "d1", { name := "D1", grafanaManagedReceivers := [] })] = ["D1"] ∧
    (["D1"] : List String) ≠ [] ∧
    "D2" ∈ (["D1", "D2"] : List String) ∧
    "D2" ∉ resolvedReceiverNames [UidOrID.uid "d1"]
        [(UidOrID.uid "d1", { name := "D1", grafanaManagedReceivers := [] })] := by
  refine ⟨rfl, rfl, by decide, by decide, by decide⟩

/-- C6 as amended: a migrated rule gets no contact-list label exactly when it
references no channels or every receiver its references resolve to is also a
default receiver (unresolvable references are dropped, so an empty resolved
set falls under this case); otherwise the label value is the comma-joined,
sorted, double-quoted union of its specific receivers and the default
receivers. -/
theorem claim_C6_contact_label (channelIDs : List UidOrID)
    (receivers : List (UidOrID × PostableApiReceiver))
    (defaultReceivers : List String) :
    (filterReceiversForAlert channelIDs receivers defaultReceivers = none ↔
      channelIDs = [] ∨
      ∀ n ∈ resolvedReceiverNames channelIDs receivers, n ∈ defaultReceivers) ∧
    (∀ names, filterReceiversForAlert channelIDs receivers defaultReceivers = some names →
      (∃ n ∈ resolvedReceiverNames channelIDs receivers, n ∉ defaultReceivers) ∧
      (∀ x, x ∈ names ↔
        x ∈ resolvedReceiverNames channelIDs receivers ∨ x ∈ defaultReceivers) ∧
      ∃ l, contactListToString names = String.intercalate "," l ∧
        l.Sorted (· ≤ ·) ∧ l.Perm (names.map quote)) := by
  constructor
  · by_cases hc : channelIDs = []
    · simp [filterReceiversForAlert, hc]
    · simp only [filterReceiversForAlert, if_neg hc]
      by_cases hcov : (resolvedReceiverNames channelIDs receivers = [] ∨
          (resolvedReceiverNames channelIDs receivers).all
            (fun n => decide (n ∈ defaultReceivers)) = true)
      · rw [if_pos hcov]
        constructor
        · intro _
          right
          rcases hcov with hres | hall
          · intro n hn
            rw [hres] at hn
            cases hn
          · intro n hn
            have := List.all_eq_true.mp hall n hn
            exact of_decide_eq_true this
        · intro _
          rfl
      · rw [if_neg hcov]
        simp only [reduceCtorEq, false_iff, not_or]
        refine ⟨hc, fun hall => hcov ?_⟩
        right
        rw [List.all_eq_true]
        intro n hn
        exact decide_eq_true (hall n hn)
  · intro names hnames
    by_cases hc : channelIDs = []
    · simp [filterReceiversForAlert, hc] at hnames
    · simp only [filterReceiversForAlert, if_neg hc] at hnames
      by_cases hcov : (resolvedReceiverNames channelIDs receivers = [] ∨
          (resolvedReceiverNames channelIDs receivers).all
            (fun n => decide (n ∈ defaultReceivers)) = true)
      · rw [if_pos hcov] at hnames
        cases hnames
      · rw [if_neg hcov] at hnames
        have hnames2 : names = defaultReceivers.foldl
            (fun acc n => if n ∈ acc then acc else acc ++ [n])
            (resolvedReceiverNames channelIDs receivers) := by
          cases hnames
          rfl
        push_neg at hcov
        obtain ⟨hne, hnall⟩ := hcov
        refine ⟨?_, ?_, ?_⟩
        · by_contra hno
          push_neg at hno
          apply hnall
          rw [List.all_eq_true]
          intro n hn
          exact decide_eq_true (hno n hn)
        · intro x
          rw [hnames2]
          exact mem_foldl_insert defaultReceivers _ x
        · refine ⟨(names.map quote).insertionSort (· ≤ ·), rfl, ?_, ?_⟩
          · exact List.sorted_insertionSort _ _
          · exact List.perm_insertionSort _ _

/-- Witness for C6 as amended: one referenced receiver R1 that is not a
default receiver, with default set D1; the label set is the union. -/
theorem claim_C6_contact_label_witness :
    (∃ n ∈ resolvedReceiverNames wFilterIDs wFilterRecv, n ∉ (["D1"] : List String)) ∧
    ("D1" ∈ (["R1", "D1"] : List String) ↔
      "D1" ∈ resolvedReceiverNames wFilterIDs wFilterRecv ∨
        "D1" ∈ (["D1"] : List String)) ∧
    ∃ l, contactListToString ["R1", "D1"] = String.intercalate "," l ∧
      l.Sorted (· ≤ ·) ∧ l.Perm ((["R1", "D1"] : List String).map quote) :=
  ⟨((claim_C6_contact_label wFilterIDs wFilterRecv ["D1"]).2 ["R1", "D1"] rfl).1,
   ((claim_C6_contact_label wFilterIDs wFilterRecv ["D1"]).2 ["R1", "D1"] rfl).2.1 "D1",
   ((claim_C6_contact_label wFilterIDs wFilterRecv ["D1"]).2 ["R1", "D1"] rfl).2.2⟩

theorem appendA_values_ne_nil {κ α : Type} [DecidableEq κ]
    (m : List (κ × List α)) (k : κ) (v : α)
    (h : ∀ p ∈ m, p.2 ≠ []) : ∀ p ∈ appendA m k v, p.2 ≠ [] := by
  induction m with
  | nil =>
    intro p hp
    simp only [appendA, List.mem_singleton] at hp
    subst hp
    simp
  | cons hd tl ih =>
    obtain ⟨k1, vs⟩ := hd
    intro p hp
    by_cases hk : k1 = k
    · simp only [appendA, if_pos hk] at hp
      rcases List.mem_cons.mp hp with rfl | hp
      · simp
      · exact h p (List.mem_cons_of_mem _ hp)
    · simp only [appendA, if_neg hk] at hp
      rcases List.mem_cons.mp hp with rfl | hp
      · exact h _ (List.mem_cons_self _ _)
      · exact ih (fun q hq => h q (List.mem_cons_of_mem _ hq)) p hp

theorem getNotificationChannelMapStep_ne_nil
    (maps : List (Int × List AlertNotification) × List (Int × List AlertNotification))
    (c : AlertNotification) (h : ∀ p ∈ maps.1, p.2 ≠ []) :
    ∀ p ∈ (getNotificationChannelMapStep maps c).1, p.2 ≠ [] := by
  unfold getNotificationChannelMapStep
  split
  · exact h
  · exact appendA_values_ne_nil maps.1 c.orgId c h

theorem getNotificationChannelMap_ne_nil (allChannels : List AlertNotification) :
    ∀ p ∈ (getNotificationChannelMap allChannels).1, p.2 ≠ [] := by
  suffices hgen : ∀ (cs : List AlertNotification)
      (maps : List (Int × List AlertNotification) × List (Int × List AlertNotification)),
      (∀ p ∈ maps.1, p.2 ≠ []) →
      ∀ p ∈ (cs.foldl getNotificationChannelMapStep maps).1, p.2 ≠ [] by
    exact hgen allChannels ([], []) (by simp)
  intro cs
  induction cs with
  | nil =>
    intro maps h
    exact h
  | cons c cs ih =>
    intro maps h
    simp only [List.foldl_cons]
    exact ih _ (getNotificationChannelMapStep_ne_nil maps c h)

theorem createReceiversGo_length (encrypt : String → String) (gen : Nat → String) :
    ∀ (cs : List AlertNotification) (st : MigState) (set : List String)
      (rmap : List (UidOrID × PostableApiReceiver)) (rs : List ChannelReceiver) res,
      createReceiversGo encrypt gen st set cs rmap rs = Except.ok res →
      res.2.1.length = rs.length + cs.length := by
  intro cs
  induction cs with
  | nil =>
    intro st set rmap rs res h
    simp only [createReceiversGo] at h
    cases h
    simp
  | cons c cs ih =>
    intro st set rmap rs res h
    cases hcn : createNotifier encrypt gen st c with
    | error e =>
      simp only [createReceiversGo, hcn, bind, Except.bind] at h
      cases h
    | ok pr =>
      obtain ⟨notifier, st2⟩ := pr
      simp only [createReceiversGo, hcn, bind, Except.bind] at h
      have hres := ih _ _ _ _ _ h
      rw [hres]
      simp only [List.length_append, List.length_cons, List.length_nil]
      omega

theorem createDefaultRouteAndReceiver_route (encrypt : String → String) (gen : Nat → String)
    (st : MigState) (dcs : List AlertNotification)
    (rOpt : Option PostableApiReceiver) (route : RootRoute) (st1 : MigState)
    (h : createDefaultRouteAndReceiver encrypt gen st dcs = Except.ok (rOpt, route, st1)) :
    route.receiver = "autogen-contact-point-default" ∨
      ∃ c, dcs = [c] ∧ route.receiver = c.name := by
  match dcs with
  | [] =>
    simp only [createDefaultRouteAndReceiver] at h
    cases h
    left
    rfl
  | [c] =>
    simp only [createDefaultRouteAndReceiver] at h
    cases h
    right
    exact ⟨c, rfl, rfl⟩
  | c1 :: c2 :: cs =>
    simp only [createDefaultRouteAndReceiver] at h
    cases hdn : createDefaultNotifiers encrypt gen st (c1 :: c2 :: cs)
        DisabledRepeatInterval [] with
    | error e =>
      rw [hdn] at h
      simp only [bind, Except.bind] at h
      cases h
    | ok dres =>
      obtain ⟨ns, ri, st2⟩ := dres
      rw [hdn] at h
      simp only [bind, Except.bind] at h
      cases h
      left
      rfl

theorem setupOrgAmConfig_route (encrypt : String → String) (gen : Nat → String)
    (validate : PostableUserConfig → Bool) (st : MigState)
    (orgRules : List (AlertRule × List UidOrID))
    (channels defaultChannels : List AlertNotification)
    (cfg : PostableUserConfig) (ur : List (AlertRule × List UidOrID)) (st1 : MigState)
    (hcs : channels ≠ [])
    (h : setupOrgAmConfig encrypt gen validate st orgRules channels defaultChannels =
      Except.ok (cfg, ur, st1)) :
    ∃ r, cfg.route = some r ∧
      (r.receiver = "autogen-contact-point-default" ∨
       ∃ c, defaultChannels = [c] ∧ r.receiver = c.name) := by
  unfold setupOrgAmConfig at h
  cases hcr : createReceivers encrypt gen st channels with
  | error e =>
    rw [hcr] at h
    simp only [bind, Except.bind] at h
    cases h
  | ok cres =>
    obtain ⟨rmap, receivers, st2⟩ := cres
    rw [hcr] at h
    simp only [bind, Except.bind] at h
    have hlen := createReceiversGo_length encrypt gen channels st [] [] []
      (rmap, receivers, st2) hcr
    have hne : receivers.isEmpty = false := by
      cases receivers with
      | nil =>
        simp only [List.length_nil] at hlen
        have hlen2 : channels.length = 0 := by omega
        exact absurd (List.length_eq_zero.mp hlen2) hcs
      | cons a l => rfl
    rw [hne] at h
    simp only [Bool.false_eq_true, if_false] at h
    cases hdr : createDefaultRouteAndReceiver encrypt gen st2 defaultChannels with
    | error e =>
      rw [hdr] at h
      simp only [bind, Except.bind] at h
      cases h
    | ok dres =>
      obtain ⟨rOpt, droute, st3⟩ := dres
      rw [hdr] at h
      simp only [bind, Except.bind] at h
      cases hmr : receivers.mapM createRoute with
      | error e =>
        rw [hmr] at h
        simp only [bind, Except.bind] at h
        cases h
      | ok croutes =>
        rw [hmr] at h
        simp only [bind, Except.bind] at h
        split at h
        · cases h
          refine ⟨_, rfl, ?_⟩
          show droute.receiver = "autogen-contact-point-default" ∨
            ∃ c, defaultChannels = [c] ∧ droute.receiver = c.name
          exact createDefaultRouteAndReceiver_route encrypt gen st2 defaultChannels
            rOpt droute st1 hdr
        · cases h

theorem setupFold_route (encrypt : String → String) (gen : Nat → String)
    (validate : PostableUserConfig → Bool)
    (dmap : List (Int × List AlertNotification))
    (rulesPerOrg : List (Int × List (AlertRule × List UidOrID))) :
    ∀ (entries : List (Int × List AlertNotification))
      (acc out : List (Int × PostableUserConfig) ×
        List (Int × List (AlertRule × List UidOrID)) × MigState),
      (∀ p ∈ entries, p.2 ≠ []) →
      (∀ q ∈ acc.1, ∃ r, q.2.route = some r ∧
        (r.receiver = "autogen-contact-point-default" ∨
         ∃ c, (lookupA dmap q.1).getD [] = [c] ∧ r.receiver = c.name)) →
      List.foldlM (setupOrgFoldStep encrypt gen validate dmap rulesPerOrg) acc entries =
        Except.ok out →
      ∀ q ∈ out.1, ∃ r, q.2.route = some r ∧
        (r.receiver = "autogen-contact-point-default" ∨
         ∃ c, (lookupA dmap q.1).getD [] = [c] ∧ r.receiver = c.name) := by
  intro entries
  induction entries with
  | nil =>
    intro acc out hents hacc hfold
    simp only [List.foldlM_nil] at hfold
    cases hfold
    exact hacc
  | cons e es ih =>
    intro acc out hents hacc hfold
    simp only [List.foldlM_cons] at hfold
    cases hstep : setupOrgFoldStep encrypt gen validate dmap rulesPerOrg acc e with
    | error err =>
      rw [hstep] at hfold
      simp only [bind, Except.bind] at hfold
      cases hfold
    | ok acc1 =>
      rw [hstep] at hfold
      simp only [bind, Except.bind] at hfold
      simp only [setupOrgFoldStep] at hstep
      cases horg : setupOrgAmConfig encrypt gen validate acc.2.2
          ((lookupA rulesPerOrg e.1).getD []) e.2 ((lookupA dmap e.1).getD []) with
      | error err =>
        rw [horg] at hstep
        simp only [bind, Except.bind] at hstep
        cases hstep
      | ok tr =>
        obtain ⟨cfg, ur, st1⟩ := tr
        rw [horg] at hstep
        simp only [bind, Except.bind] at hstep
        cases hstep
        refine ih _ out (fun p hp => hents p (List.mem_cons_of_mem e hp)) ?_ hfold
        intro q hq
        rcases List.mem_append.mp hq with hq | hq
        · exact hacc q hq
        · rcases List.mem_singleton.mp hq with rfl
          have hne : e.2 ≠ [] := hents e (List.mem_cons_self e es)
          have hroute := setupOrgAmConfig_route encrypt gen validate acc.2.2
            ((lookupA rulesPerOrg e.1).getD []) e.2 ((lookupA dmap e.1).getD [])
            cfg ur st1 hne horg
          simpa using hroute

/-- C1: whenever setupAlertmanagerConfigs succeeds, every produced
per-organisation alertmanager configuration carries a root route, whose
receiver is the synthetic default autogen-contact-point-default or, when the
organisation has exactly one default channel, that channel's name.
Organisations whose channel list would be empty never enter the result (the
per-organisation channel map only holds non-empty lists), so the default
route exists in every produced configuration even with zero notification
channels or zero default channels in the organisation's input rows. -/
theorem claim_C1_default_route (encrypt : String → String) (gen : Nat → String)
    (validate : PostableUserConfig → Bool) (st : MigState)
    (rulesPerOrg : List (Int × List (AlertRule × List UidOrID)))
    (allChannels : List AlertNotification)
    (res : List (Int × PostableUserConfig) ×
      List (Int × List (AlertRule × List UidOrID)) × MigState)
    (hok : setupAlertmanagerConfigs encrypt gen validate st rulesPerOrg allChannels =
      Except.ok res)
    (p : Int × PostableUserConfig) (hp : p ∈ res.1) :
    ∃ r, p.2.route = some r ∧
      (r.receiver = "autogen-contact-point-default" ∨
       ∃ c, (lookupA (getNotificationChannelMap allChannels).2 p.1).getD [] = [c] ∧
         r.receiver = c.name) := by
  simp only [setupAlertmanagerConfigs] at hok
  exact setupFold_route encrypt gen validate (getNotificationChannelMap allChannels).2
    rulesPerOrg (getNotificationChannelMap allChannels).1 ([], [], st) res
    (getNotificationChannelMap_ne_nil allChannels) (by simp) hok p hp

/-- Witness for C1: one organisation with a single non-default channel; its
configuration's root route points at autogen-contact-point-default. -/
theorem claim_C1_default_route_witness :
    ∃ r, wSetupPair.2.route = some r ∧
      (r.receiver = "autogen-contact-point-default" ∨
       ∃ c, (lookupA (getNotificationChannelMap wSetupChannels).2 wSetupPair.1).getD [] =
          [c] ∧ r.receiver = c.name) :=
  claim_C1_default_route (fun s => s) (fun _ => "g") (fun _ => true) ⟨⟨[], false⟩, 0⟩
    [] wSetupChannels wSetupRes rfl wSetupPair (List.mem_cons_self _ _)

end GrafanaMigration
